import Mathlib

set_option maxRecDepth 200000

/-
Verification development for the RC4 stream-cipher family: a shallow
embedding of `rc4_class.py` (classes RC4, RC4A, VMPC, RCPlus, RCDrop) and
`rc4_single_function.py` (function `rc4`), together with proofs of the
specified properties.

Modelling conventions:
  * A Python list of ints is a `List Nat`; indexing `s[i]` is `s.getD i 0`
    (every index that the programs actually use is in bounds, which the
    permutation lemmas below make precise).
  * Python's `x & 0xFF` on nonnegative ints is `x &&& 0xFF`, `x << n` is
    `x <<< n`, `x >> n` is `x >>> n`, `x ^ y` is `x ^^^ y`, `x % n` is
    `x % n`; all agree with Python on nonnegative integers.
  * A textual key or plaintext is modelled by its list of character codes,
    exactly what `[ord(char) for char in key]` / UTF-8 encoding produce for
    the ASCII inputs used in the test vectors ('key' = [107, 101, 121],
    'test' = [116, 101, 115, 116], etc.).
  * Mutable object state (the S-box list(s) and the counters i, j, j2 and
    the RC4A phase flag) is an explicit state record threaded through the
    step functions; each `PRGA(size)` method is a fold of its loop body.
  * Fallible behaviour (the `ZeroDivisionError` raised by
    `key[i % key_length]` when `key_length == 0`, and the
    `assert len(key) > 0` in the single-function entry point) is modelled
    with `Except PyError`.
-/

namespace RC4Repo

/-- Python's simultaneous assignment `s[a], s[b] = s[b], s[a]`: both
right-hand sides are read from the original list, then written back. -/
def listSwap (s : List Nat) (a b : Nat) : List Nat :=
  let x := s.getD a 0
  let y := s.getD b 0
  (s.set a y).set b x

/-- Loop body of `RC4.KSA` (rc4_class.py lines 43-45): the accumulator is
the pair (s, j); `j = (j + s[i] + key[i % key_length]) & 0xFF` followed by
the swap of `s[i]` and `s[j]`. -/
def KSAstep (key : List Nat) (sj : List Nat × Nat) (i : Nat) : List Nat × Nat :=
  let j := (sj.2 + sj.1.getD i 0 + key.getD (i % key.length) 0) &&& 0xFF
  (listSwap sj.1 i j, j)

/-- Key Scheduling Algorithm `RC4.KSA` (rc4_class.py lines 19-47), shared by
every variant: start from `s = list(range(256))`, `j = 0`, and run the loop
body for `i in range(256)`.  (For an empty key the Python code raises
`ZeroDivisionError` instead; see `KSAchecked`.) -/
def RC4.KSA (key : List Nat) : List Nat :=
  ((List.range 256).foldl (KSAstep key) (List.range 256, 0)).1

/-- State of one baseline-RC4-shaped cipher object: counters `self.i`,
`self.j` and the S-box `self.s`.  Shared by RC4, VMPC, RCPlus, RCDrop and
the single-function entry point, whose state is exactly this data. -/
structure RC4State where
  i : Nat
  j : Nat
  s : List Nat
deriving DecidableEq

/-- State set up by `RC4.__init__` (rc4_class.py lines 14-16). -/
def RC4.init (key : List Nat) : RC4State :=
  ⟨0, 0, RC4.KSA key⟩

/-- Loop body of `RC4.PRGA` (rc4_class.py lines 69-74): advance the
counters, swap, and produce the keystream byte `k`. -/
def RC4.step (st : RC4State) : RC4State × Nat :=
  let i := (st.i + 1) &&& 0xFF
  let j := (st.j + st.s.getD i 0) &&& 0xFF
  let s := listSwap st.s i j
  let k := s.getD ((s.getD i 0 + s.getD j 0) &&& 0xFF) 0
  (⟨i, j, s⟩, k)

/-- Keystream loop shared by every `PRGA(size)` method: run the given loop
body `size` times, collecting the appended bytes in order and returning the
final state. -/
def runStream {α : Type} (step : α → α × Nat) : α → Nat → α × List Nat
  | st, 0 => (st, [])
  | st, n + 1 =>
    let p := step st
    let r := runStream step p.1 n
    (r.1, p.2 :: r.2)

/-- Method `RC4.PRGA(size)` (rc4_class.py lines 50-76). -/
def RC4.PRGA (st : RC4State) (size : Nat) : RC4State × List Nat :=
  runStream RC4.step st size

/-- Method `encode_decode` (rc4_class.py lines 78-80), defined once on the
base class: generate `len(content_bytes)` keystream bytes with the active
variant's PRGA (passed here as `step`) and XOR them with the input. -/
def encodeDecodeWith {α : Type} (step : α → α × Nat) (st : α) (content : List Nat) : List Nat :=
  List.zipWith (fun x k => x ^^^ k) content (runStream step st content.length).2

/-- `RC4(...).encode_decode` with the baseline PRGA.  `encode_str` is this
map applied to the UTF-8 bytes of the input, and `decode_str` is this map
followed by UTF-8 decoding; both claims' vectors are stated on the byte
lists. -/
def RC4.encode_decode (st : RC4State) (content : List Nat) : List Nat :=
  encodeDecodeWith RC4.step st content

/-- State of an RC4A object: the base-class fields plus the second S-box
`self.S2`, its counter `self.j2`, and the phase flag `self.first_op`. -/
structure RC4AState where
  i : Nat
  j : Nat
  s : List Nat
  S2 : List Nat
  j2 : Nat
  first_op : Bool
deriving DecidableEq

/-- State set up by `RC4A.__init__` before the optional skip
(rc4_class.py lines 105-110): the base constructor builds `s` with
`KSA(key)` and the subclass runs the same deterministic `KSA(key)` a second
time for `S2`. -/
def RC4A.init (key : List Nat) : RC4AState :=
  ⟨0, 0, RC4.KSA key, RC4.KSA key, 0, true⟩

/-- Loop body of `RC4A.PRGA` (rc4_class.py lines 118-134): the two phases
alternate via `self.first_op`; only the first phase advances `i`. -/
def RC4A.step (st : RC4AState) : RC4AState × Nat :=
  if st.first_op then
    let i := (st.i + 1) &&& 0xFF
    let j := (st.j + st.s.getD i 0) &&& 0xFF
    let s := listSwap st.s i j
    let k := st.S2.getD ((s.getD i 0 + s.getD j 0) &&& 0xFF) 0
    (⟨i, j, s, st.S2, st.j2, false⟩, k)
  else
    let j2 := (st.j2 + st.S2.getD st.i 0) &&& 0xFF
    let S2 := listSwap st.S2 st.i j2
    let k := st.s.getD ((S2.getD st.i 0 + S2.getD j2 0) &&& 0xFF) 0
    (⟨st.i, st.j, st.s, S2, j2, true⟩, k)

/-- Method `RC4A.PRGA(size)` (rc4_class.py lines 115-136). -/
def RC4A.PRGA (st : RC4AState) (size : Nat) : RC4AState × List Nat :=
  runStream RC4A.step st size

/-- `RC4A.__init__` including the optional warm-up
(rc4_class.py lines 112-113): `if skip > 0: self.PRGA(skip)`. -/
def RC4A.initSkip (key : List Nat) (skip : Nat) : RC4AState :=
  if 0 < skip then (RC4A.PRGA (RC4A.init key) skip).1 else RC4A.init key

/-- `RC4A(...).encode_decode`, dispatching to `RC4A.PRGA`. -/
def RC4A.encode_decode (st : RC4AState) (content : List Nat) : List Nat :=
  encodeDecodeWith RC4A.step st content

/-- Loop body of `VMPC.PRGA` (rc4_class.py lines 158-168).  The two
assignments `self.s[self.i] = b` and `self.s[self.j] = a` are sequential
single-element writes (with `a`, `b` read from the pre-write list). -/
def VMPC.step (st : RC4State) : RC4State × Nat :=
  let a := st.s.getD st.i 0
  let j := st.s.getD ((st.j + a) &&& 0xFF) 0
  let b := st.s.getD j 0
  let k := st.s.getD ((st.s.getD b 0 + 1) &&& 0xFF) 0
  let s := (st.s.set st.i b).set j a
  let i := (st.i + 1) &&& 0xFF
  (⟨i, j, s⟩, k)

/-- Method `VMPC.PRGA(size)` (rc4_class.py lines 155-170). -/
def VMPC.PRGA (st : RC4State) (size : Nat) : RC4State × List Nat :=
  runStream VMPC.step st size

/-- `VMPC.__init__` (rc4_class.py lines 150-153): base constructor, then
`if skip > 0: self.PRGA(skip)`. -/
def VMPC.initSkip (key : List Nat) (skip : Nat) : RC4State :=
  if 0 < skip then (VMPC.PRGA (RC4.init key) skip).1 else RC4.init key

/-- `VMPC(...).encode_decode`, dispatching to `VMPC.PRGA`. -/
def VMPC.encode_decode (st : RC4State) (content : List Nat) : List Nat :=
  encodeDecodeWith VMPC.step st content

/-- Loop body of `RCPlus.PRGA` (rc4_class.py lines 192-208).  Python
precedence makes line 206 parse as
`((s[(a+b) % 256] + s[c ^ 0xAA]) & 0xFF) ^ s[(j+b) & 0xFF]`. -/
def RCPlus.step (st : RC4State) : RC4State × Nat :=
  let i := (st.i + 1) &&& 0xFF
  let a := st.s.getD i 0
  let j := (st.j + a) &&& 0xFF
  let b := st.s.getD j 0
  let s := (st.s.set i b).set j a
  let v := (i <<< 5 ^^^ j >>> 3) &&& 0xFF
  let w := (j <<< 5 ^^^ i >>> 3) &&& 0xFF
  let c := (s.getD v 0 + s.getD j 0 + s.getD w 0) &&& 0xFF
  let k := ((s.getD ((a + b) % 256) 0 + s.getD (c ^^^ 0xAA) 0) &&& 0xFF) ^^^ s.getD ((j + b) &&& 0xFF) 0
  (⟨i, j, s⟩, k)

/-- Method `RCPlus.PRGA(size)` (rc4_class.py lines 189-210). -/
def RCPlus.PRGA (st : RC4State) (size : Nat) : RC4State × List Nat :=
  runStream RCPlus.step st size

/-- `RCPlus.__init__` (rc4_class.py lines 184-187). -/
def RCPlus.initSkip (key : List Nat) (skip : Nat) : RC4State :=
  if 0 < skip then (RCPlus.PRGA (RC4.init key) skip).1 else RC4.init key

/-- `RCPlus(...).encode_decode`, dispatching to `RCPlus.PRGA`. -/
def RCPlus.encode_decode (st : RC4State) (content : List Nat) : List Nat :=
  encodeDecodeWith RCPlus.step st content

/-- `RCDrop.__init__` (rc4_class.py lines 233-246): identical state and
PRGA to baseline RC4, with a warm-up of `skip` discarded baseline steps
(`skip` defaults to 768 at the Python call site). -/
def RCDrop.init (key : List Nat) (skip : Nat) : RC4State :=
  if 0 < skip then (RC4.PRGA (RC4.init key) skip).1 else RC4.init key

/-- Skip-loop body of the single-function entry point
(rc4_single_function.py lines 48-51): the baseline counter advance and swap
with no output byte computed. -/
def dropStep (st : RC4State) : RC4State :=
  let i := (st.i + 1) &&& 0xFF
  let j := (st.j + st.s.getD i 0) &&& 0xFF
  ⟨i, j, listSwap st.s i j⟩

/-- The `for _ in range(skip)` loop of the single-function entry point. -/
def skipLoop (st : RC4State) : Nat → RC4State
  | 0 => st
  | n + 1 => skipLoop (dropStep st) n

/-- Skip count derived from the initialization vector
(rc4_single_function.py line 46):
`(510 + sum(c << i for i, c in enumerate(initialization_vector[:16]))) & 0xFFFF`. -/
def ivSkip (iv : List Nat) : Nat :=
  (510 + ((iv.take 16).enum.map (fun p => p.2 <<< p.1)).sum) &&& 0xFFFF

/-- XOR loop of the single-function entry point
(rc4_single_function.py lines 60-67): per input byte, the baseline counter
advance and swap, then `output_bytes[idx] ^= s[(s[i] + s[j]) & 0xFF]`. -/
def rc4Loop (st : RC4State) : List Nat → List Nat
  | [] => []
  | x :: xs =>
    let i := (st.i + 1) &&& 0xFF
    let j := (st.j + st.s.getD i 0) &&& 0xFF
    let s := listSwap st.s i j
    (x ^^^ s.getD ((s.getD i 0 + s.getD j 0) &&& 0xFF) 0) :: rc4Loop ⟨i, j, s⟩ xs

/-- The single-function entry point `rc4(key, input_bytes,
initialization_vector)` (rc4_single_function.py lines 6-69), after its
always-passing type checks and, for a non-empty key, its assertion: build
the S-box, reset `i = j = 0`, run the skip loop iff the IV is non-empty,
then XOR the input with the generated keystream.  Type validation of the
arguments is out of scope; the empty-key assertion is modelled by
`rc4Checked`. -/
def rc4 (key input_bytes iv : List Nat) : List Nat :=
  let s0 : RC4State := ⟨0, 0, RC4.KSA key⟩
  let s1 := if iv = [] then s0 else skipLoop s0 (ivSkip iv)
  rc4Loop s1 input_bytes

/-- Exceptions the programs can raise on an empty key. -/
inductive PyError where
  | zeroDivisionError
  | assertionError
deriving DecidableEq

/-- Fallible view of `RC4.KSA`: for an empty key, the first loop iteration
evaluates `key[0 % 0]` and Python raises `ZeroDivisionError` before any
output exists; for a non-empty key the KSA runs to completion. -/
def KSAchecked (key : List Nat) : Except PyError (List Nat) :=
  if key.length = 0 then Except.error PyError.zeroDivisionError
  else Except.ok (RC4.KSA key)

/-- Fallible `RC4.__init__`. -/
def RC4.initChecked (key : List Nat) : Except PyError RC4State :=
  (KSAchecked key).map (fun s => ⟨0, 0, s⟩)

/-- Fallible `RC4A.__init__` (both `KSA` calls are on the same key, so the
first failure already aborts construction). -/
def RC4A.initChecked (key : List Nat) (skip : Nat) : Except PyError RC4AState :=
  (KSAchecked key).map (fun s =>
    if 0 < skip then (RC4A.PRGA ⟨0, 0, s, s, 0, true⟩ skip).1 else ⟨0, 0, s, s, 0, true⟩)

/-- Fallible `VMPC.__init__`. -/
def VMPC.initChecked (key : List Nat) (skip : Nat) : Except PyError RC4State :=
  (KSAchecked key).map (fun s =>
    if 0 < skip then (VMPC.PRGA ⟨0, 0, s⟩ skip).1 else ⟨0, 0, s⟩)

/-- Fallible `RCPlus.__init__`. -/
def RCPlus.initChecked (key : List Nat) (skip : Nat) : Except PyError RC4State :=
  (KSAchecked key).map (fun s =>
    if 0 < skip then (RCPlus.PRGA ⟨0, 0, s⟩ skip).1 else ⟨0, 0, s⟩)

/-- Fallible `RCDrop.__init__`. -/
def RCDrop.initChecked (key : List Nat) (skip : Nat) : Except PyError RC4State :=
  (KSAchecked key).map (fun s =>
    if 0 < skip then (RC4.PRGA ⟨0, 0, s⟩ skip).1 else ⟨0, 0, s⟩)

/-- Fallible single-function entry point: `assert len(key) > 0`
(rc4_single_function.py line 26) raises `AssertionError` for an empty key
before the S-box loop runs; otherwise the function computes `rc4`. -/
def rc4Checked (key input_bytes iv : List Nat) : Except PyError (List Nat) :=
  if key.length = 0 then Except.error PyError.assertionError
  else Except.ok (rc4 key input_bytes iv)

/-- Transcribed from the spec (§4.1): initialize S[n] = n for n in 0..255,
set j = 0, and for i = 0..255 update `j = (j + S[i] + key[i mod L]) mod 256`
and swap S[i] with S[j]. -/
def KSAspec (key : List Nat) : List Nat :=
  ((List.range 256).foldl (fun sj i =>
      let j := (sj.2 + sj.1.getD i 0 + key.getD (i % key.length) 0) % 256
      (listSwap sj.1 i j, j))
    (List.range 256, 0)).1

/-- Transcribed from the spec (§4.2): per output byte `i = (i+1) mod 256`;
`j = (j + S[i]) mod 256`; swap S[i], S[j]; output
`k = S[(S[i]+S[j]) mod 256]`. -/
def RC4stepSpec (st : RC4State) : RC4State × Nat :=
  let i := (st.i + 1) % 256
  let j := (st.j + st.s.getD i 0) % 256
  let s := listSwap st.s i j
  (⟨i, j, s⟩, s.getD ((s.getD i 0 + s.getD j 0) % 256) 0)

/-- Transcribed from the spec (§4.3): the two alternating phases of RC4A,
with `i` advanced only in the first phase. -/
def RC4AstepSpec (st : RC4AState) : RC4AState × Nat :=
  if st.first_op then
    let i := (st.i + 1) % 256
    let j := (st.j + st.s.getD i 0) % 256
    let s := listSwap st.s i j
    (⟨i, j, s, st.S2, st.j2, false⟩, st.S2.getD ((s.getD i 0 + s.getD j 0) % 256) 0)
  else
    let j2 := (st.j2 + st.S2.getD st.i 0) % 256
    let S2 := listSwap st.S2 st.i j2
    (⟨st.i, st.j, st.s, S2, j2, true⟩, st.s.getD ((S2.getD st.i 0 + S2.getD j2 0) % 256) 0)

/-- Transcribed from the spec (§4.4): `a = S[i]`; `j = S[(j+a) mod 256]`;
`b = S[j]`; output `k = S[(S[b]+1) mod 256]`; then `S[i] = b`, `S[j] = a`;
finally `i = (i+1) mod 256`. -/
def VMPCstepSpec (st : RC4State) : RC4State × Nat :=
  let a := st.s.getD st.i 0
  let j := st.s.getD ((st.j + a) % 256) 0
  let b := st.s.getD j 0
  let k := st.s.getD ((st.s.getD b 0 + 1) % 256) 0
  (⟨(st.i + 1) % 256, j, (st.s.set st.i b).set j a⟩, k)

/-- Transcribed from the spec (§4.5): the RC4+ step with
`v = (i<<5 XOR j>>3) mod 256`, `w = (j<<5 XOR i>>3) mod 256`,
`c = (S[v] + S[j] + S[w]) mod 256` and output
`k = ((S[(a+b) mod 256] + S[c XOR 0xAA]) mod 256) XOR S[(j+b) mod 256]`. -/
def RCPlusStepSpec (st : RC4State) : RC4State × Nat :=
  let i := (st.i + 1) % 256
  let a := st.s.getD i 0
  let j := (st.j + a) % 256
  let b := st.s.getD j 0
  let s := (st.s.set i b).set j a
  let v := (i <<< 5 ^^^ j >>> 3) % 256
  let w := (j <<< 5 ^^^ i >>> 3) % 256
  let c := (s.getD v 0 + s.getD j 0 + s.getD w 0) % 256
  (⟨i, j, s⟩,
    ((s.getD ((a + b) % 256) 0 + s.getD (c ^^^ 0xAA) 0) % 256) ^^^ s.getD ((j + b) % 256) 0)

/-- Transcribed from the spec (§4.8): skip count
`(510 + Σ iv[k] << k for k in 0..len(iv)-1) mod 65536`, over at most the
first 16 IV bytes. -/
def ivSkipSpec (iv : List Nat) : Nat :=
  (510 + ((iv.take 16).enum.map (fun p => p.2 <<< p.1)).sum) % 65536


/-- Base-256 packing of a byte list into a single natural number: digit k
of the number is element k of the list.  This is a verification-side
representation used to evaluate long concrete cipher runs efficiently; the
simulation lemmas below prove it equivalent to the list state. -/
def pack : List Nat → Nat
  | [] => 0
  | x :: t => x + 256 * pack t

/-- Digit k of a packed S-box. -/
def packGet (p k : Nat) : Nat := p / 256 ^ k % 256

/-- Packed S-box with digit k replaced by v. -/
def packSet (p k v : Nat) : Nat :=
  p % 256 ^ k + v * 256 ^ k + p / 256 ^ (k + 1) * 256 ^ (k + 1)

/-- Packed mirror of `listSwap`. -/
def packSwap (p a b : Nat) : Nat := packSet (packSet p a (packGet p b)) b (packGet p a)

/-- All entries of the list are bytes. -/
def byteList (s : List Nat) : Prop := ∀ x ∈ s, x < 256

/-- Packed counterpart of `RC4State`: the S-box list replaced by its
base-256 packing. -/
structure PackState where
  i : Nat
  j : Nat
  p : Nat
deriving DecidableEq

/-- Packed counterpart of `RC4AState`. -/
structure PackState2 where
  i : Nat
  j : Nat
  p : Nat
  p2 : Nat
  j2 : Nat
  first_op : Bool
deriving DecidableEq

/-- Abstraction of a baseline-shaped state to its packed form. -/
def AbsR (st : RC4State) : PackState := ⟨st.i, st.j, pack st.s⟩

/-- Abstraction of an RC4A state to its packed form. -/
def AbsA (st : RC4AState) : PackState2 :=
  ⟨st.i, st.j, pack st.s, pack st.S2, st.j2, st.first_op⟩

/-- Packed mirror of `RC4.step`. -/
def RC4.stepP (st : PackState) : PackState × Nat :=
  let i := (st.i + 1) &&& 0xFF
  let j := (st.j + packGet st.p i) &&& 0xFF
  let p := packSwap st.p i j
  let k := packGet p ((packGet p i + packGet p j) &&& 0xFF)
  (⟨i, j, p⟩, k)

/-- Packed mirror of `RC4A.step`. -/
def RC4A.stepP (st : PackState2) : PackState2 × Nat :=
  if st.first_op then
    let i := (st.i + 1) &&& 0xFF
    let j := (st.j + packGet st.p i) &&& 0xFF
    let p := packSwap st.p i j
    let k := packGet st.p2 ((packGet p i + packGet p j) &&& 0xFF)
    (⟨i, j, p, st.p2, st.j2, false⟩, k)
  else
    let j2 := (st.j2 + packGet st.p2 st.i) &&& 0xFF
    let p2 := packSwap st.p2 st.i j2
    let k := packGet st.p ((packGet p2 st.i + packGet p2 j2) &&& 0xFF)
    (⟨st.i, st.j, st.p, p2, j2, true⟩, k)

/-- Packed mirror of `VMPC.step`. -/
def VMPC.stepP (st : PackState) : PackState × Nat :=
  let a := packGet st.p st.i
  let j := packGet st.p ((st.j + a) &&& 0xFF)
  let b := packGet st.p j
  let k := packGet st.p ((packGet st.p b + 1) &&& 0xFF)
  let p := packSet (packSet st.p st.i b) j a
  let i := (st.i + 1) &&& 0xFF
  (⟨i, j, p⟩, k)

/-- Packed mirror of `RCPlus.step`. -/
def RCPlus.stepP (st : PackState) : PackState × Nat :=
  let i := (st.i + 1) &&& 0xFF
  let a := packGet st.p i
  let j := (st.j + a) &&& 0xFF
  let b := packGet st.p j
  let p := packSet (packSet st.p i b) j a
  let v := (i <<< 5 ^^^ j >>> 3) &&& 0xFF
  let w := (j <<< 5 ^^^ i >>> 3) &&& 0xFF
  let c := (packGet p v + packGet p j + packGet p w) &&& 0xFF
  let k := ((packGet p ((a + b) % 256) + packGet p (c ^^^ 0xAA)) &&& 0xFF)
    ^^^ packGet p ((j + b) &&& 0xFF)
  (⟨i, j, p⟩, k)

/-- Packed mirror of `KSAstep`. -/
def KSAstepP (key : List Nat) (pj : Nat × Nat) (i : Nat) : Nat × Nat :=
  let j := (pj.2 + packGet pj.1 i + key.getD (i % key.length) 0) &&& 0xFF
  (packSwap pj.1 i j, j)

/-- Invariant carried through baseline-shaped simulations. -/
def RInv (st : RC4State) : Prop := st.s.length = 256 ∧ byteList st.s

/-- Invariant carried through VMPC simulations: VMPC additionally indexes
with the raw counter `i`. -/
def VInv (st : RC4State) : Prop := st.s.length = 256 ∧ byteList st.s ∧ st.i < 256

/-- Invariant carried through RC4A simulations. -/
def AInv (st : RC4AState) : Prop :=
  st.s.length = 256 ∧ byteList st.s ∧ st.S2.length = 256 ∧ byteList st.S2 ∧ st.i < 256

/-- Packed form of `List.range 256`, the initial S-box. -/
def packRange : Nat :=
  32316509077753586139510713445660514514047171580093496865901477602143224540557412340472969236184020377745408638077439397456141948699754273791418869985027499602243785773646750786158629119897527698459159582903277348091197804306308450975276589715725867107713970624879795449576651053772645338545136289129326403509065092108109101077472046144122638474948527343653345105797020149055603954704727773430317796884279167058635246262041734914578626456397727386204475718614091025348906121070916929137541182355893615952208805117487445236884750886234300399097674869962426348425792929710270231641017897005896324246640151098893336183040

/-- Packed accumulator after the first 128 key-schedule rounds for key 'key'. -/
def ksaHalf3 : Nat × Nat :=
  (1135647751112077188693341646474733555528686572038516483749378240267465070831934648794863245829210761773395860319661628703748201803760694970769448859665577522120422097125908305747967842746748790799043666095379385839106481788218296824866497532433328553439522462008927397952982630072096491678277070326921154816095609700008914674724601634300097314048622248119720345926080461687754525386290021668855892991931495947159879397822474581230161538369986084193987218724842542476631795998823755896156958220530885151095648845874295975623358891460859906942814134264960979229535346753722015272230589800974110719890768446011211764075,
   189)

/-- Packed accumulator after all 256 key-schedule rounds for key 'key'. -/
def ksaFull3 : Nat × Nat :=
  (18606084418149895785711475882033443366572675585801664217638016591351308554937257426820439479549131190374981998173019749481067520856515454900043721290483039271573715772573266487210417760589825464993013979523369389456751777704354383117504834959480039341557621318936426168375327961621207682288333509726478508501863837301924041904270484498956660446889708400008414594540264647884233703130530970611583253477874891789333031253094100423105202170039696902884926661975020919264833301887044632320885848319541018199458549292484978514986346736554563988998908108393564706218118723639045098464338140272495413888825866304333088277355,
   250)

/-- Packed accumulator after the first 128 key-schedule rounds for key 'Key'. -/
def ksaHalfK : Nat × Nat :=
  (32316509072227751526908485852687806249143677980116600954160737428649699222892371414389024635405575911523934320088297490773750338060970402422073821417633079441172624956305160012526173879760368744651223833963390655916720505991032456018226206265472107137868827385511978971299423725443548227373835804406091187057452357088964256830807387510640919826131586606895835239161666209207259202263760357835340299246600140300836324529999142887342059224913023423743980341249654942239546566613957880729084421832186056013513430752654397423164285129155550852995862235584818433458452570776317056767614513434660245462490168204226647077195,
   122)

/-- Packed accumulator after all 256 key-schedule rounds for key 'Key'. -/
def ksaFullK : Nat × Nat :=
  (18587517567424155144538043729815938918555206602428887725155182604342890373847651547649999718577763177843499014848708886080914781302684915857717709516822471226509846406164281236568710447774937120509430404926543014319912569443266718784228967496867314139886840513244382452569795268685315098911339326425865836524832753547897673382198003726197020967480249742800778397765632933612791636863257072952256562678721249185694812553556221674861137300132962892389402490421701737631860667858547078439050104266563872886581170250564397959859232326588183052212977983020214769362015084330254002103462001175895165031596335121134025716555,
   54)

/-- Packed baseline state after 128 keystream steps from RC4('key'). -/
def chkQ1 : PackState :=
  ⟨128, 128,
   18605963535014406285757145204130550832122683476859327168560586984275235226221600251953094579097143427627690381157215943858750324021295988424744932464245914415694430692234693610449825348038124500925602881300675240770902716777518882462822710372365386353103841243052987666082437633790134928551766764601362040203422661598653607529906799586737855670624128546591633763726752570633025750677279658120690579208168489118201361497053571264949015456486969059815691323028122357602726924192990984134675280353759207607827780252233418666278182653160561634155142809236160936109951031460602033138102476856467631994736130972243170727275⟩

/-- Packed baseline state after 256 keystream steps from RC4('key'). -/
def chkQ2 : PackState :=
  ⟨0, 207,
   8093479896496588037205531853575392629733268824862626259767216960746268026869661327424658108843903367698045699631368114996311011664159472989632154112719418038326548862675900990100937335982976472198603413206060182019665612824155223760168890443348150712232497001125911752213128288812937696581503216234021081390644954341400062353174250285131152135142810733206628355834154405385981913466016251159306224690207563149773642038650052967878049268980785770641909372948492291014545022394177206118179522521343407805001027539133223437471671382807245801328061147905508356450123858381554397963886772626645711053466471458381492164030⟩

/-- Packed baseline state after 384 keystream steps from RC4('key'). -/
def chkQ3 : PackState :=
  ⟨128, 43,
   8115176247847354226314981003874613529928029782904545297733536662095083471128908100317865274105598064606695375238637080506492317566987247127066733034909986515704227278174307324553545506580350558792687632958442338723081017201159381463227438647553152236661817317672084465856086066851513790404557194473597191756974725705752608822252128130602729919377649085753335225413104930509172034641745181795301380628094618203883501284700302593657856981426591261118664470741373661088799231395018139212813229946137764806816868378466539304526557016918447660097020856514428289014805200535822759632451250977307912594633107955263115065670⟩

/-- Packed baseline state after 512 keystream steps from RC4('key'). -/
def chkQ4 : PackState :=
  ⟨0, 74,
   27007619336702969454501205542789566844902585417513113420415870600281011531376587899944697088882966624295879939299538110355065016694351765317498338571434312981309910409760191312484840638693026667188973285841728185543668366943418022182268670484310355008102284132131390528786102518117192935885475324983338192041505667554215961931921787806957070352840377277817489908678977124966476288162456586850179911974817120395943579077606183844307230917739447544850743071032719537280015327984068743316492255665847222674980690151304519419696366210382139065811612153299384617937133060795214819642893750310867211262045423764570478971905⟩

/-- Packed baseline state after 640 keystream steps from RC4('key'). -/
def chkQ5 : PackState :=
  ⟨128, 68,
   20316989354087206249445792706390933370225925930518407449600099349880158682894139671335779726254468529896531717507177296786360201707077144718835677473607884793773508335465032557257636126436973395475716542058186735166836661177012874382525733359175760443097728358994721620935634691111911956179656150548508472211714753281210385128746137194444262298237674438894540150081581625164838487819144515887419441772542788890950520940441403775593191681141309922233238978197157896903817668678530676614989080823975491978830209310358275497838572214617207834124140883961886765605008590475050469552698320484285384476805152738761113160705⟩

/-- Packed baseline state after 768 keystream steps from RC4('key'). -/
def chkQ6 : PackState :=
  ⟨0, 85,
   27758938039025388369851212755941194942603934802759632766392327115106633736664526628808184064029842334600726989504646843741292111979952628240759007890606177276314558010789684342980617282566267332381563893292647327382731907675232811106599965622665241163944284186983192475430085128624369641762845455606806639537835366460157106665306573153367592297924033250683511706356683648655295948744259872320324493574278818506109106168593979326995586349723112583838699414039602247945802209269881683230302736303693107138344720003813709954043561033525161105639799310693655522774583590302794424764267709750554721197847119972661518224585⟩

/-- Packed baseline state after 896 keystream steps from RC4('key'). -/
def chkQ7 : PackState :=
  ⟨128, 47,
   27758939350473541776129225087520590821114826723427879691157547004036202712937809410509409910495495830693184536238467001409753501905391295155133518203781570779928030448067328201679562048271597093349081433217316966543325659710320091819502810460462495198200546585223938080468328700566775309170010157239992601244667413937816989884022895769024252284213856435972738875829848094246584512436035115872385433341694248229574182595932781059809836463997777404931086150991680140559863789786698821026312533247104048506353648278004019121807516830657389585045063694803565523796449547592470510780967774817394215816675360234300868894115⟩

/-- Packed baseline state after 1024 keystream steps from RC4('key'). -/
def chkQ8 : PackState :=
  ⟨0, 161,
   10207411019307712972081549166912379784028462870806340489942486267233462589733104295003382448104449548916988295778399096430276878917348409231809334551928503275602491374207558765048791527852682411980547933371599238660988329882433503230127908958837041489537601282899294388081912596751452034120425221610015759802013241474174932075097859740750715708952119352204876699083059998173045798888057407661881295027927558145539245068888160659174384110923573836918525213976732967604119615027766174974548013636912658475125228878852934588495943036718926943490427308511008825316209853497312566871046481638576781451075850746008415739980⟩

/-- Packed baseline state after 1152 keystream steps from RC4('key'). -/
def chkQ9 : PackState :=
  ⟨128, 14,
   5914501555041230499651649906270042660091810404044914693993022566641094464318978633465498578743278821457888691764910761047340748138495256552115989995497192418337635267439668364376108917683371977898460515894924441222057207708719564006766525337689710284187974872933346521408104496263558730933632614285296412533886719497084841019189063700727362260039262009174922255073409674358781060913521988776223965827739966588547505617689387376269443982377547232679959301972748356074191148656051622504629677018362823341876433724010215726713804644204720382442379543882304336668834030000825148701971303899993695619179407560722656147020⟩

/-- Packed baseline state after 1280 keystream steps from RC4('key'). -/
def chkQ10 : PackState :=
  ⟨0, 171,
   22179041592212324355334243065595915318323386192692542501104695276333418303217819013245132475564156409365211177911210469587317974369835879036573696882281590126473642473525292243535775123709238165218379763702435666146624574478898869957273793541284985936813132066425733024133526375527027209823723426127398560132808600801312776206606244090571502508275479772029338546478993717896969484323695538961194750258822024735166472340536651806056860614956559063485089849735213990431517692370332447998730919523519631916608584187205279551345486632400721302772130807567878363074065742408005456074268978134238660981488882680085681729560⟩

/-- Packed baseline state after 1408 keystream steps from RC4('key'). -/
def chkQ11 : PackState :=
  ⟨128, 167,
   22093239010030445187963743611282980986511865381776804638624188162951208998400335930538438500664433105516706816576855945571730019787711361636140371822646406955270861801371935644495675692969428185587292315695635608583591409676107037982586138030062836626721373034705795493608202011487593462303387180075889405263769647537139693778109796140145240545616361975410181832096682876798477250486995639285195713069028521070541690029606983864215760528552252352999824755588226392444544339062733576713326365121894327226839596553024886022291048482705257033051477862604164917023564705567659567879694054922582162764369202655211678368280⟩

/-- Packed baseline state after 1536 keystream steps from RC4('key'). -/
def chkQ12 : PackState :=
  ⟨0, 189,
   18690627565913086003462012310989925993241259950661260785337305748459950050458029078471586351375476028933193919512196431007210391846445547417538849937005672448008993748266592714788815026801030108514056491090935560407815277848874335289186068529004194870619707892007595754115862480931593664388713024967201261494586111661808538826447189805280898904869943207296271662399388772563157448232403275926363597693777848313673241996225430548046973848327977767124356599029876065991959065408499619320861923221755620812204693742397944188419233056600672588125880332082673912875253600069069045810690753288384699828874010631399853032180⟩

/-- Packed baseline state after 1664 keystream steps from RC4('key'). -/
def chkQ13 : PackState :=
  ⟨128, 176,
   17175767906320382536243743749100118149148321736239152895686211778688079643824207132450810855928953409175201049425398592214503957815473560801082734549066814535522915765782143270387527777945674562917918117536269232524674013664442060489209383285966367855621187476891846532327343569281278718118759405915176605375183701760144856224587627722218238173441309642314663227944302365614942826997644585313240250186753245676977664265579942231294940403955567187501921748075052547782985487619076796901552885543026517796789903892760237591036939367392959072909197685996797236083278233516165822145439446850151565467215810837957682250740⟩

/-- Packed baseline state after 1792 keystream steps from RC4('key'). -/
def chkQ14 : PackState :=
  ⟨0, 254,
   2378557641677019764169412830815461152333128646690039106691136521886268988566892077429797308020506168473352137507846036649454004033863018691573847017791603942909026864059717379723541230934698992423504950936810526178571554996180757907302512622840259375995284502604261631301589709503208875214723092603019001994696517680983628221774300339227724531105626138553118749289509251669391128419015189609181844356959432367063491821244810696944708721196497925385692737293589445886085939285189596108353375776791968401936833520268614108236479702457950264101884685804308858835939383929414015319683518884158424805741773132662965877165⟩

/-- Packed baseline state after 1920 keystream steps from RC4('key'). -/
def chkQ15 : PackState :=
  ⟨128, 138,
   4272334471748580088201254043960772788166842920698300335187174877061875118333274827717445842666085134525560859426902058797899897019776466091020612561907595850297278199607341596077353637816543421596666544056430350799999078733281555434379079916078528554776403706690680864985163100458556454962588742333474377845948523809522807986593042544803707152704173665619702489151909151893742992033084343622646948286453503950435861214865005363464075171938631990771834758503167954569315213444614461800185042377613714603807879543348413059990320459060532052773083108544569826066130708285284045753808338490435682958932319478809049347245⟩

/-- Packed baseline state after 2048 keystream steps from RC4('key'). -/
def chkQ16 : PackState :=
  ⟨0, 5,
   1450672801322744648619066190888489317451722891407597261883356010079563855227137339850320000004298409958134385893339825776548960029634425671299056609125882746825945907451049681983291788620808189306019840676798196234823900207731535348550104596235004711453976162485161109515623729445514067528225735319594030128514558195435805573419821622645319968578093313614878868974199276935412192173566641601843956675794493271906073480932392197216147871811415825372240928078135891867993514445294502817638362587831870223513657798074417811357173220618606812809370074043122438878014083933686880055876445675245231797268569091840400608260⟩

/-- Packed baseline state after 2176 keystream steps from RC4('key'). -/
def chkQ17 : PackState :=
  ⟨128, 92,
   1401857934326411653230466728154789943728768884510360873463816156527326434624499336694023601492463870089037134766898202547022261010812222093183392745983368394086044881317454034909351372036893165118167809412832949425824345902387676519916797314001995362552259096855731000849988139574880138826307985871891727835531130277688093619537102700349904626772854960299785691483722079036908890668488352414944563964623980731293449576608220872545678231274546642827859656225220034032887700358449588887159529023604751904515337081740116929194831576727076947027432467752676154058503506800053916890020732469462771497664987342065728779780⟩

/-- Packed baseline state after 2304 keystream steps from RC4('key'). -/
def chkQ18 : PackState :=
  ⟨0, 73,
   31153930263731122479729398103000101064337858956231635500916202855110053836564671605441440737796200018204270594664228976510003425555010428873442182682910080167803215348884392706595539810098636021674861959615931971365070316684694437505009805037088697420243335348343143659799290146372007856258802187637953158689473907730132313208445057649561219291051495676672626355201495743647971857523436106752699680780403438922308843793684623673320483078578856308302987614271418453939505134394082864914231378550411885876966014223313719547751550319301763309394806951391346720513985505530663357770181262286737591405083417571996122248780⟩

/-- Packed baseline state after 2432 keystream steps from RC4('key'). -/
def chkQ19 : PackState :=
  ⟨128, 106,
   31153928884916170539214175222131636056749145316678525609401373767867465059478601367164488774966898917600372732524063741026478468376895888105988842764753102045530204280192593381802117486110663046483885885640966279682644733996661765397584982344957578749389050121933291298715634025213332298913563746816041785479368807421483080504272181339483581132960608850950110558101693253517264652701464826093567366509552355827625141205515100952831480359915832897328250127227135476121237433578545729964684918015910952398169675536198374455697656328887795336076868135710471365575653480812461981208014562410656795604645095730161416180300⟩

/-- Packed baseline state after 2560 keystream steps from RC4('key'). -/
def chkQ20 : PackState :=
  ⟨0, 251,
   20712647321381304440743028277741695239162245091340097322065542474764381804162530401401995350115177519289620522156486698821109149180926491735623370243653452715615921055655193513395587394618556334598837960906152048802638448443209424132066234873298487922349954351959669171563349712340528819758924275519837219391023635363783209685537841825736480620193689263492154897929547584335734314577060837766643130045434274639111428739154133853385378797371225861935151764277178211298635606953419929857611573908098369804819373308250141342464348643971324792288656745341413079584653148496916243153318535870628411252905603933619428299400⟩

/-- Packed baseline state after 2688 keystream steps from RC4('key'). -/
def chkQ21 : PackState :=
  ⟨128, 173,
   20712647321381304440859365945562520369047103541566101058837801244378829649904464873611072057673631307047778998251603099174295473375142645369943934402785106989411278406426815050463942175636282031051161022673799570537046035725713282888184641954611836638327350986366430739495599997857139590930960197277154792000997601657870199170427013448093436766877431199829284672059292064631260627375875224873358963244895881395095653666734920647554811205273366922633011058508834555909143410422764935183900994319236346271304734775896672913304101451628644185637431294262106764427946275735882526671538142845201573544993783414415430653970⟩

/-- Packed baseline state after 2816 keystream steps from RC4('key'). -/
def chkQ22 : PackState :=
  ⟨0, 164,
   16894186936012965231329326134687429783788351376143745507501506507272538405125946234000984395789716452238199528570877682506064870765917428254773627059630811168291213370459326121506802359281640727376837995784107255729972758747348433613000096505791425380109916068500148341837651070854676381504998065023903162276523552186191172026453144916238326204297451000505752631441720183746050811939157901839711401876018053079572850299637862921654668152693496456139310521945024204960018571886455678192416005931191892889968940687370536855951568831795854376025677370849058765788869272623305624265600492815976917590948811763378136422600⟩

/-- Packed baseline state after 2944 keystream steps from RC4('key'). -/
def chkQ23 : PackState :=
  ⟨128, 179,
   16894187099521472484721613387524300011945986659456962425276776129693479376088239962693730408060598353304907301464797801637693893238016128298889588779477455660905333980904578962322859528750105753887251899432803541179801590192135884213879609296395140263859223463256011055744421132772067837191072030908406905807177869571978371084684526371148519643848029577028171934397126766599553840901763075809753796752365590092467658474457335703106741034529321405761710534369974773253726125498617968092534189478525792289885548638926488745892838936659269059849719242328060989616291206838943500025336805199969147189532543718483692682440⟩

/-- Packed baseline state after 3072 keystream steps from RC4('key'). -/
def chkQ24 : PackState :=
  ⟨0, 196,
   30304704971604608066235048115140889606892088682498787001194360302102470092157521775162892164757883996592465926011292906025619045736027248119620441557543714184719866299416088455745854417168653082246999309315694847887105816347333167085424393131886855559113598814689857025814342808740896113439527913745705707036358885115024675419006468966616170261217803370055102419007121663463353144052846104647536140941055176859936320614324988927374902838631332399857226309512482532485020424661358047567386724230798321365921121775695834843448253960030535638624872419849492821624010066690414139608204011235438966311660955316676627856570⟩

/-- Packed baseline state after 3200 keystream steps from RC4('key'). -/
def chkQ25 : PackState :=
  ⟨128, 4,
   30380152087054644389787468662595304105133760056356823565821022506421739993608224700383050162970197479210630826164777311641002230611065806802869639547630859611158702259643610297043545058228104379217518496492322852865904782339058413328943529111030534785954838180272986416476582882487667734017270692047308495309774611158901086556619924183381654809082599380377945082095599292273606400092205228153775999357861098530312528011203935841531649961498182473619649591946879492773506034716783895592043477643767445344935357749121274527035442548670356090329339185018799592411429147616957742549512722116791002682175539485285518927290⟩

/-- Packed baseline state after 3328 keystream steps from RC4('key'). -/
def chkQ26 : PackState :=
  ⟨0, 200,
   3754638254819109751942891740498285556880562374516813270392097976377273335654575892694345501585642904314700604176618306340402490685326379504111852592352537511067399162067138804788173527435205917774126287902295520462113606211035315667104073752445461111789388683677986789397046014576625033783843775463723374566392497399879246577231468971985730252838499160859808460585029614906742307489140136911313844740035748415233097293001381030214937520460341268475949026401768140008980446538793737631427316913974808111287456177897397971373299540579963876893740513335118806971126663933104340702419454021630127255292649477524812937725⟩

/-- Packed baseline state after 3456 keystream steps from RC4('key'). -/
def chkQ27 : PackState :=
  ⟨128, 175,
   3763021267258262102454296772906479705380125476041920726185119740445077381800354096683760689898818862278906576544222769401515278978376430835445086563946558759378344801122683134198948977781781464459299159180213523327470339387557657929249040877321835171294341978689541776011185130437158397771186692439602518747473741356474496018091481930441584238866886550422409748946722842400465618675741851518272572470104637803516611849370968561329622893316643095867370389610868350585125643304792863457364181316952755781457395961739835262661665241488059458365653913884602072517396411943631306301101525898393861378707004809217570407165⟩

/-- Packed baseline state after 3584 keystream steps from RC4('key'). -/
def chkQ28 : PackState :=
  ⟨0, 61,
   8183446450824074139737622212636953595818504908243925426734319050112324903821795853014084579642417697346880406544713893501227475772233102387287304947191065866356731294359844090334635691990402390200686091552043792654402062502210180767155735623720163974622627830684058719023732533892487908108705278624269439008850331835519959002769037011142217242321999981270771057014525672716617251222355579669428519222767016346645129420843077380575468739454892721812851517434513249109110089591806677152056978013173654884883863620270026945772771240558517680542654384041151116653885477346020110984159851061285690124150054484610712764965⟩

/-- Packed baseline state after 3712 keystream steps from RC4('key'). -/
def chkQ29 : PackState :=
  ⟨128, 187,
   30021687888708905725952517018850390126035918734020203337765425751575872542440170416078319354993874854987627905820161736797479790331574137534138670158973716729669302144217170264845519724473441744209248166921042625238977679872325308385150483952222546417785460221957897319689659555906960983968458297465706406985855275732231083277963489446662314424202620179450146036950603542441115972369978041930866263013255852341248080662145846255460510620498868043284319791217922621725333672225606757664051752677415705141294189063075391606448143686638036006025165631331238800627019124975254668108979888488928653873894727094758845782565⟩

/-- Packed baseline state after 3840 keystream steps from RC4('key'). -/
def chkQ30 : PackState :=
  ⟨0, 120,
   4512827773081575052570727216164674453115447699296250964371989884994774057236913005680609543190019251228908613101155384929604683546442358358037913572812286877894149406603890894013707601490073272914038914945475762812080670159259732015773494486690527403326705753156527898269324758475202670198947568911776620458739180409001442974544338552922964443895882831781190717063646703572697458230910056863188673129294700502949302834634146143108878826390725785221411114315395251519625814945967153017954670665475195734921108172224199208797800638790548817359948529876508315867927730423097381234357000377067522121029543724643323812440⟩

/-- Packed baseline state after 3968 keystream steps from RC4('key'). -/
def chkQ31 : PackState :=
  ⟨128, 225,
   6797439443208970661828924519115215820942369516047339879447270902851245812892459879638777285959957819337195213212571532870027500258161343183312744392550855494634903014988028394982352889127581202841069813323550198125405228961949322685864625000846279455615209321622642465985633003357682079230839132735270289831602980208387410621007963405151536187289614675549839756507990897830070767172614717685088397191080078487698200950867616330918473164137763739248490964435618213618369747526042813490242890216645000989687929811374440977412023713160727728426799360834139578604700963699980128428930343242597595659736306305976600682840⟩

/-- Packed baseline state after 4096 keystream steps from RC4('key'). -/
def chkQ32 : PackState :=
  ⟨0, 211,
   12366959404465338471046435469942371965705808984468522302758067485481029606979519733386030941802407592718926118952820318476828885883932574600101566084554810463132685501732892867464623244851684235966093633589299478788542897659551332388038227799351918284559960217420580773814775572576436564981246290972021640828328517706019401158076699856935340906150384256259797279981050096673265347670201380491830852703731864369634063961039885406018496532043617255492867191757982928713111470300769886477211822722582347873936424707806687120856948368337545347494872421178885579675510889715075936856411307299903478777436204993588684841400⟩

/-- Packed RC4A state after 128 keystream steps from RC4A('key'). -/
def chkQA1 : PackState2 :=
  ⟨64, 6,
   18606082959682217431792238011025523363363113939986027702077622360119113978677710632902532383658326892588950578560397291952889381194804143398348221061977340009227639683771034297949464888390213149245440323194095202972930493294592087842633179209612702602963481729900612830632421472284242529849266534256327290387691306239209850191971721222849265440344319968931787567856384982362220133675924404423307506728968774865550907672717225493678442604210942317321397230434050875456245881684920383562021014293096422290507927375509784548558952538367938572277131767430738469156793456868830690519037751022287940208815936909917766587755,
   18606082959682217431792238011025523363363113939986027702077622360119113978677710632902532383658326892588950578560397291952889381194804143398348221061977340009227639683771034297949464888390213149245440323194095202972930493294592087842633179209612702602963481729900612830632421472284242529849266534256327290387691306239209850191971721222849265440344319968931787567856384982362220133675924404423307506728968774865550907672717225493678442604210942317321397230434050875456245881684920383562021014293096422290507927375509784548558952538367938572277131767430738469156793456868830690519037751022287940208815936909917766587755,
   6, true⟩

/-- Packed RC4A state after 256 keystream steps from RC4A('key'). -/
def chkQA2 : PackState2 :=
  ⟨128, 128,
   18605963535014406285757145204130550832122683476859327168560586984275235226221600251953094579097143427627690381157215943858750324021295988424744932464245914415694430692234693610449825348038124500925602881300675240770902716777518882462822710372365386353103841243052987666082437633790134928551766764601362040203422661598653607529906799586737855670624128546591633763726752570633025750677279658120690579208168489118201361497053571264949015456486969059815691323028122357602726924192990984134675280353759207607827780252233418666278182653160561634155142809236160936109951031460602033138102476856467631994736130972243170727275,
   18605963535014406285757145204130550832122683476859327168560586984275235226221600251953094579097143427627690381157215943858750324021295988424744932464245914415694430692234693610449825348038124500925602881300675240770902716777518882462822710372365386353103841243052987666082437633790134928551766764601362040203422661598653607529906799586737855670624128546591633763726752570633025750677279658120690579208168489118201361497053571264949015456486969059815691323028122357602726924192990984134675280353759207607827780252233418666278182653160561634155142809236160936109951031460602033138102476856467631994736130972243170727275,
   128, true⟩

/-- Packed RC4A state after 384 keystream steps from RC4A('key'). -/
def chkQA3 : PackState2 :=
  ⟨192, 62,
   15828720821940137641979241432051107942002688415034555512675792233636250173764813451720363182193447781362449500282999227494638903484086373767819882289968740411472788774728001792572635143315135989617369180644827355947287650559047063248767314525543582733243715165128593766045601377597350578880435072975995605673397741211779785817959166698729718309898874835159544111945777190122617340970518042088704083084205625742894422644344286565575730810062741581213194304193861733158272364744662342360941253118496346817684406394413955157843181155242029983471907483993838849882284412029736928721933518052700948082928949965576894190895,
   15828720821940137641979241432051107942002688415034555512675792233636250173764813451720363182193447781362449500282999227494638903484086373767819882289968740411472788774728001792572635143315135989617369180644827355947287650559047063248767314525543582733243715165128593766045601377597350578880435072975995605673397741211779785817959166698729718309898874835159544111945777190122617340970518042088704083084205625742894422644344286565575730810062741581213194304193861733158272364744662342360941253118496346817684406394413955157843181155242029983471907483993838849882284412029736928721933518052700948082928949965576894190895,
   62, true⟩

/-- Packed RC4A state after 512 keystream steps from RC4A('key'). -/
def chkQA4 : PackState2 :=
  ⟨0, 207,
   8093479896496588037205531853575392629733268824862626259767216960746268026869661327424658108843903367698045699631368114996311011664159472989632154112719418038326548862675900990100937335982976472198603413206060182019665612824155223760168890443348150712232497001125911752213128288812937696581503216234021081390644954341400062353174250285131152135142810733206628355834154405385981913466016251159306224690207563149773642038650052967878049268980785770641909372948492291014545022394177206118179522521343407805001027539133223437471671382807245801328061147905508356450123858381554397963886772626645711053466471458381492164030,
   8093479896496588037205531853575392629733268824862626259767216960746268026869661327424658108843903367698045699631368114996311011664159472989632154112719418038326548862675900990100937335982976472198603413206060182019665612824155223760168890443348150712232497001125911752213128288812937696581503216234021081390644954341400062353174250285131152135142810733206628355834154405385981913466016251159306224690207563149773642038650052967878049268980785770641909372948492291014545022394177206118179522521343407805001027539133223437471671382807245801328061147905508356450123858381554397963886772626645711053466471458381492164030,
   207, true⟩

/-- Packed RC4A state after 640 keystream steps from RC4A('key'). -/
def chkQA5 : PackState2 :=
  ⟨64, 251,
   8115177105627737351078779799389400399057969798644288979126020616130516416656312110570751449808220862583937985018276906014935910160200166663640138184561859923983472453395106139400091700645897937712837762460980118949049997925891100097419329250349424153695092997008908364860304040592094457716462140234010712626435737306707918627705434952052577256658258514903505900255252497937800978753659791283980478623581716570727462479419908750004158150568523371786875236125023708332588177647916572326439197224200073997895310130674973816316183103502440511410858458401446776323573680347312363687768514372745559887515501952914077743550,
   8115177105627737351078779799389400399057969798644288979126020616130516416656312110570751449808220862583937985018276906014935910160200166663640138184561859923983472453395106139400091700645897937712837762460980118949049997925891100097419329250349424153695092997008908364860304040592094457716462140234010712626435737306707918627705434952052577256658258514903505900255252497937800978753659791283980478623581716570727462479419908750004158150568523371786875236125023708332588177647916572326439197224200073997895310130674973816316183103502440511410858458401446776323573680347312363687768514372745559887515501952914077743550,
   251, true⟩

/-- Packed RC4A state after 768 keystream steps from RC4A('key'). -/
def chkQA6 : PackState2 :=
  ⟨128, 43,
   8115176247847354226314981003874613529928029782904545297733536662095083471128908100317865274105598064606695375238637080506492317566987247127066733034909986515704227278174307324553545506580350558792687632958442338723081017201159381463227438647553152236661817317672084465856086066851513790404557194473597191756974725705752608822252128130602729919377649085753335225413104930509172034641745181795301380628094618203883501284700302593657856981426591261118664470741373661088799231395018139212813229946137764806816868378466539304526557016918447660097020856514428289014805200535822759632451250977307912594633107955263115065670,
   8115176247847354226314981003874613529928029782904545297733536662095083471128908100317865274105598064606695375238637080506492317566987247127066733034909986515704227278174307324553545506580350558792687632958442338723081017201159381463227438647553152236661817317672084465856086066851513790404557194473597191756974725705752608822252128130602729919377649085753335225413104930509172034641745181795301380628094618203883501284700302593657856981426591261118664470741373661088799231395018139212813229946137764806816868378466539304526557016918447660097020856514428289014805200535822759632451250977307912594633107955263115065670,
   43, true⟩

/-- Packed RC4A state after 896 keystream steps from RC4A('key'). -/
def chkQA7 : PackState2 :=
  ⟨192, 125,
   8115176247847354226971946657451037843279702864962526632912559513632874452274264804248555318127048174512229936163830845511893422249458181491513596307341430018647239952405283199554728627730048771195102388307061651498695955153057943901683257286128911635164706070812519312390688732214856179734230670542219816432291798472805751512163109096097471375798764443276396296121761593091356913633831622810147764264236178500644318779904556600949753604037337552237287439264788992231286549257041985888039440947223894608567719534003215590072363972486655301756852965399929939738433658277983575657800773525217373183591546851427379809350,
   8115176247847354226971946657451037843279702864962526632912559513632874452274264804248555318127048174512229936163830845511893422249458181491513596307341430018647239952405283199554728627730048771195102388307061651498695955153057943901683257286128911635164706070812519312390688732214856179734230670542219816432291798472805751512163109096097471375798764443276396296121761593091356913633831622810147764264236178500644318779904556600949753604037337552237287439264788992231286549257041985888039440947223894608567719534003215590072363972486655301756852965399929939738433658277983575657800773525217373183591546851427379809350,
   125, true⟩

/-- Packed RC4A state after 1024 keystream steps from RC4A('key'). -/
def chkQA8 : PackState2 :=
  ⟨0, 74,
   27007619336702969454501205542789566844902585417513113420415870600281011531376587899944697088882966624295879939299538110355065016694351765317498338571434312981309910409760191312484840638693026667188973285841728185543668366943418022182268670484310355008102284132131390528786102518117192935885475324983338192041505667554215961931921787806957070352840377277817489908678977124966476288162456586850179911974817120395943579077606183844307230917739447544850743071032719537280015327984068743316492255665847222674980690151304519419696366210382139065811612153299384617937133060795214819642893750310867211262045423764570478971905,
   27007619336702969454501205542789566844902585417513113420415870600281011531376587899944697088882966624295879939299538110355065016694351765317498338571434312981309910409760191312484840638693026667188973285841728185543668366943418022182268670484310355008102284132131390528786102518117192935885475324983338192041505667554215961931921787806957070352840377277817489908678977124966476288162456586850179911974817120395943579077606183844307230917739447544850743071032719537280015327984068743316492255665847222674980690151304519419696366210382139065811612153299384617937133060795214819642893750310867211262045423764570478971905,
   74, true⟩

/-- Packed RC4A state after 1152 keystream steps from RC4A('key'). -/
def chkQA9 : PackState2 :=
  ⟨64, 37,
   20316989354087206263459562990639435528899876740948059967390501569079764312639460545318488338804372114742336586025967902544603793263454698830685425063362996094400089416657312898382703595589326598967117933220875140118718746276720132253867367906424421640525298762958892639309067291536683306436559825127804660052538328214326840128450718979644719057146253525876329494944043345536254687242603338936253622825842050753128761190534423210251318766705116090881947351124601682132611605492597373672219592590165408417673215390697059353108222497629261664552462569682564440347517908865376438524822504043078121904838919429316391947265,
   20316989354087206263459562990639435528899876740948059967390501569079764312639460545318488338804372114742336586025967902544603793263454698830685425063362996094400089416657312898382703595589326598967117933220875140118718746276720132253867367906424421640525298762958892639309067291536683306436559825127804660052538328214326840128450718979644719057146253525876329494944043345536254687242603338936253622825842050753128761190534423210251318766705116090881947351124601682132611605492597373672219592590165408417673215390697059353108222497629261664552462569682564440347517908865376438524822504043078121904838919429316391947265,
   37, true⟩

/-- Python's `x & 0xFF` on a nonnegative int is reduction mod 256. -/
theorem land255_eq_mod (x : Nat) : x &&& 255 = x % 256 := by
  simpa using Nat.and_pow_two_sub_one_eq_mod x 8

theorem land255_lt (x : Nat) : x &&& 255 < 256 := by
  rw [land255_eq_mod]
  exact Nat.mod_lt _ (by norm_num)

/-- Python's `x & 0xFFFF` on a nonnegative int is reduction mod 65536. -/
theorem land65535_eq_mod (x : Nat) : x &&& 65535 = x % 65536 := by
  simpa using Nat.and_pow_two_sub_one_eq_mod x 16

theorem listSwap_length (s : List Nat) (a b : Nat) : (listSwap s a b).length = s.length := by
  simp [listSwap]

theorem getD_cons_set_perm (xs : List Nat) (m x : Nat) (h : m < xs.length) :
    List.Perm (xs.getD m 0 :: xs.set m x) (x :: xs) := by
  induction xs generalizing m with
  | nil => simp at h
  | cons y t ih =>
    cases m with
    | zero =>
      simpa using List.Perm.swap x y t
    | succ m =>
      have hm : m < t.length := by simpa using h
      simp only [List.getD_cons_succ, List.set_cons_succ]
      exact (List.Perm.swap y (t.getD m 0) (t.set m x)).trans
        ((List.Perm.cons y (ih m hm)).trans (List.Perm.swap x y t))

/-- A swap of two in-bounds positions permutes the list. -/
theorem listSwap_perm (s : List Nat) (a b : Nat) (ha : a < s.length) (hb : b < s.length) :
    List.Perm (listSwap s a b) s := by
  induction s generalizing a b with
  | nil => simp at ha
  | cons y t ih =>
    cases a with
    | zero =>
      cases b with
      | zero => simp [listSwap]
      | succ m =>
        have hm : m < t.length := by simpa using hb
        simp only [listSwap, List.getD_cons_zero, List.getD_cons_succ, List.set_cons_zero,
          List.set_cons_succ]
        exact getD_cons_set_perm t m y hm
    | succ n =>
      have hn : n < t.length := by simpa using ha
      cases b with
      | zero =>
        simp only [listSwap, List.getD_cons_zero, List.getD_cons_succ, List.set_cons_zero,
          List.set_cons_succ]
        exact getD_cons_set_perm t n y hn
      | succ m =>
        have hm : m < t.length := by simpa using hb
        simp only [listSwap, List.getD_cons_succ, List.set_cons_succ]
        exact List.Perm.cons y (ih n m hn hm)

theorem perm_sbox_length (s : List Nat) (h : List.Perm s (List.range 256)) : s.length = 256 := by
  simpa using h.length_eq

/-- Every value read from a 256-permutation is itself below 256. -/
theorem perm_value_lt (s : List Nat) (h : List.Perm s (List.range 256)) (n : Nat)
    (hn : n < s.length) : s.getD n 0 < 256 := by
  have hmem : s.getD n 0 ∈ s := by
    rw [List.getD_eq_getElem s 0 hn]
    exact List.getElem_mem hn
  exact List.mem_range.mp (h.mem_iff.mp hmem)

theorem foldl_KSAstep_perm (key : List Nat) (l : List Nat) (hl : ∀ x ∈ l, x < 256)
    (init : List Nat × Nat) (h : List.Perm init.1 (List.range 256)) :
    List.Perm ((l.foldl (KSAstep key) init)).1 (List.range 256) := by
  induction l generalizing init with
  | nil => simpa using h
  | cons x xs ih =>
    have hx : x < 256 := hl x (by simp)
    have hlen : init.1.length = 256 := perm_sbox_length _ h
    have hnext : List.Perm (KSAstep key init x).1 (List.range 256) := by
      refine List.Perm.trans ?_ h
      refine listSwap_perm _ _ _ ?_ ?_
      · rw [hlen]; exact hx
      · rw [hlen]; exact land255_lt _
    simpa using ih (fun y hy => hl y (by simp [hy])) _ hnext

/-- The key schedule always returns a permutation of 0..255. -/
theorem KSA_perm (key : List Nat) : List.Perm (RC4.KSA key) (List.range 256) := by
  unfold RC4.KSA
  exact foldl_KSAstep_perm key (List.range 256) (fun x hx => List.mem_range.mp hx)
    (List.range 256, 0) (List.Perm.refl _)

theorem runStream_length {α : Type} (step : α → α × Nat) (st : α) (n : Nat) :
    (runStream step st n).2.length = n := by
  induction n generalizing st with
  | zero => rfl
  | succ n ih => simp [runStream, ih]

theorem runStream_add {α : Type} (step : α → α × Nat) (st : α) (m n : Nat) :
    runStream step st (m + n)
      = ((runStream step (runStream step st m).1 n).1,
         (runStream step st m).2 ++ (runStream step (runStream step st m).1 n).2) := by
  induction m generalizing st with
  | zero => simp [runStream]
  | succ m ih => simp [Nat.succ_add, runStream, ih]

theorem encodeDecodeWith_cons {α : Type} (step : α → α × Nat) (st : α) (x : Nat)
    (xs : List Nat) :
    encodeDecodeWith step st (x :: xs)
      = (x ^^^ (step st).2) :: encodeDecodeWith step (step st).1 xs := by
  simp [encodeDecodeWith, runStream]

/-- XOR with the same keystream twice gives back the plaintext: the shared
`encode_decode` of two identically-seeded instances is an involution,
whatever loop body generates the stream. -/
theorem encodeDecodeWith_involution {α : Type} (step : α → α × Nat) (st : α) (P : List Nat) :
    encodeDecodeWith step st (encodeDecodeWith step st P) = P := by
  induction P generalizing st with
  | nil => rfl
  | cons x xs ih =>
    rw [encodeDecodeWith_cons, encodeDecodeWith_cons, Nat.xor_cancel_right, ih]

/-- The state part of one baseline PRGA step equals the output-free step of
the single-function skip loop. -/
theorem RC4_step_fst (st : RC4State) : (RC4.step st).1 = dropStep st := rfl

theorem skipLoop_eq (n : Nat) (st : RC4State) : skipLoop st n = (RC4.PRGA st n).1 := by
  induction n generalizing st with
  | zero => rfl
  | succ n ih =>
    simp only [skipLoop, ih, RC4.PRGA, runStream]
    rw [RC4_step_fst]

theorem rc4Loop_eq (xs : List Nat) (st : RC4State) :
    rc4Loop st xs = encodeDecodeWith RC4.step st xs := by
  induction xs generalizing st with
  | nil => rfl
  | cons x t ih =>
    rw [encodeDecodeWith_cons]
    simp only [rc4Loop, ih]
    rfl

theorem ivSkip_eq_spec (iv : List Nat) : ivSkip iv = ivSkipSpec iv := by
  simp [ivSkip, ivSkipSpec, land65535_eq_mod]

/-- Splitting a baseline keystream: the bytes after the first `m` are the
bytes generated from the state reached after `m` steps. -/
theorem drop_length_append (l₁ l₂ : List Nat) (m : Nat) (h : l₁.length = m) :
    (l₁ ++ l₂).drop m = l₂ := by
  subst h
  exact List.drop_left _ _

theorem runStream_fst_add {α : Type} (step : α → α × Nat) (st : α) (m n : Nat) :
    (runStream step st (m + n)).1 = (runStream step (runStream step st m).1 n).1 := by
  rw [runStream_add]

theorem PRGA_split (st : RC4State) (m n : Nat) :
    ((RC4.PRGA st (m + n)).2).drop m = (RC4.PRGA (RC4.PRGA st m).1 n).2 := by
  rw [RC4.PRGA, runStream_add]
  exact drop_length_append _ _ m (runStream_length RC4.step st m)

theorem pack_lt (s : List Nat) (h : byteList s) : pack s < 256 ^ s.length := by
  induction s with
  | nil => simp [pack]
  | cons x t ih =>
    have hx : x < 256 := h x (by simp)
    have ht : pack t < 256 ^ t.length := ih (fun y hy => h y (by simp [hy]))
    calc x + 256 * pack t < 256 + 256 * pack t := by omega
    _ = 256 * (pack t + 1) := by ring
    _ ≤ 256 * 256 ^ t.length := by
        exact Nat.mul_le_mul_left 256 ht
    _ = 256 ^ (x :: t).length := by
        simp [List.length_cons, pow_succ]
        ring

theorem getD_lt (s : List Nat) (h : byteList s) (k : Nat) : s.getD k 0 < 256 := by
  rcases Nat.lt_or_ge k s.length with hk | hk
  · rw [List.getD_eq_getElem s 0 hk]
    exact h _ (List.getElem_mem hk)
  · rw [List.getD_eq_default]
    · norm_num
    · exact hk

theorem pack_getD (s : List Nat) (h : byteList s) (k : Nat) :
    packGet (pack s) k = s.getD k 0 := by
  induction s generalizing k with
  | nil => simp [pack, packGet]
  | cons x t ih =>
    have hx : x < 256 := h x (by simp)
    have ht : byteList t := fun y hy => h y (by simp [hy])
    cases k with
    | zero =>
      show (x + 256 * pack t) / 256 ^ 0 % 256 = x
      rw [pow_zero, Nat.div_one, Nat.add_mul_mod_self_left, Nat.mod_eq_of_lt hx]
    | succ k =>
      show (x + 256 * pack t) / 256 ^ (k + 1) % 256 = t.getD k 0
      rw [pow_succ, mul_comm (256 ^ k) 256, ← Nat.div_div_eq_div_mul,
        Nat.add_mul_div_left x (pack t) (by norm_num), Nat.div_eq_of_lt hx, Nat.zero_add]
      exact ih ht k

theorem pack_set (s : List Nat) (k v : Nat) (h : byteList s) (hk : k < s.length) :
    pack (s.set k v) = packSet (pack s) k v := by
  induction s generalizing k with
  | nil => simp at hk
  | cons x t ih =>
    have hx : x < 256 := h x (by simp)
    have ht : byteList t := fun y hy => h y (by simp [hy])
    cases k with
    | zero =>
      show pack (v :: t) = packSet (x + 256 * pack t) 0 v
      show v + 256 * pack t
        = (x + 256 * pack t) % 256 ^ 0 + v * 256 ^ 0 + (x + 256 * pack t) / 256 ^ 1 * 256 ^ 1
      rw [pow_zero, pow_one, Nat.mod_one, Nat.add_mul_div_left x (pack t) (by norm_num),
        Nat.div_eq_of_lt hx, Nat.zero_add]
      ring
    | succ k =>
      have hkt : k < t.length := by simpa using hk
      show pack (x :: t.set k v) = packSet (x + 256 * pack t) (k + 1) v
      show x + 256 * pack (t.set k v)
        = (x + 256 * pack t) % 256 ^ (k + 1) + v * 256 ^ (k + 1)
          + (x + 256 * pack t) / 256 ^ (k + 2) * 256 ^ (k + 2)
      have hmod : (x + 256 * pack t) % 256 ^ (k + 1) = x + 256 * (pack t % 256 ^ k) := by
        conv_lhs => rw [← Nat.div_add_mod (pack t) (256 ^ k)]
        have e1 : x + 256 * (256 ^ k * (pack t / 256 ^ k) + pack t % 256 ^ k)
            = x + 256 * (pack t % 256 ^ k) + 256 ^ (k + 1) * (pack t / 256 ^ k) := by
          rw [pow_succ]
          ring
        rw [e1, Nat.add_mul_mod_self_left]
        refine Nat.mod_eq_of_lt ?_
        have h2 : pack t % 256 ^ k < 256 ^ k := Nat.mod_lt _ (Nat.pos_pow_of_pos k (by norm_num))
        calc x + 256 * (pack t % 256 ^ k) < 256 + 256 * (pack t % 256 ^ k) := by omega
        _ = 256 * (pack t % 256 ^ k + 1) := by ring
        _ ≤ 256 * 256 ^ k := Nat.mul_le_mul_left 256 h2
        _ = 256 ^ (k + 1) := by rw [pow_succ]; ring
      have hdiv : (x + 256 * pack t) / 256 ^ (k + 2) = pack t / 256 ^ (k + 1) := by
        rw [pow_succ, mul_comm (256 ^ (k + 1)) 256, ← Nat.div_div_eq_div_mul,
          Nat.add_mul_div_left x (pack t) (by norm_num), Nat.div_eq_of_lt hx, Nat.zero_add]
      rw [hmod, hdiv, ih k ht hkt]
      show x + 256 * (pack t % 256 ^ k + v * 256 ^ k + pack t / 256 ^ (k + 1) * 256 ^ (k + 1))
        = x + 256 * (pack t % 256 ^ k) + v * 256 ^ (k + 1)
          + pack t / 256 ^ (k + 1) * 256 ^ (k + 2)
      rw [pow_succ 256 k, pow_succ 256 (k + 1)]
      ring

theorem byteList_set (s : List Nat) (k v : Nat) (h : byteList s) (hv : v < 256) :
    byteList (s.set k v) := by
  intro x hx
  rcases List.mem_or_eq_of_mem_set hx with h1 | h2
  · exact h x h1
  · subst h2
    exact hv

theorem byteList_listSwap (s : List Nat) (a b : Nat) (h : byteList s) :
    byteList (listSwap s a b) := by
  simp only [listSwap]
  exact byteList_set (s.set a (s.getD b 0)) b (s.getD a 0)
    (byteList_set s a (s.getD b 0) h (getD_lt s h b)) (getD_lt s h a)

theorem byteList_of_perm (s : List Nat) (h : List.Perm s (List.range 256)) : byteList s :=
  fun _ hx => List.mem_range.mp (h.mem_iff.mp hx)

theorem pack_listSwap (s : List Nat) (a b : Nat) (h : byteList s) (ha : a < s.length)
    (hb : b < s.length) : pack (listSwap s a b) = packSwap (pack s) a b := by
  simp only [listSwap, packSwap]
  rw [pack_set (s.set a (s.getD b 0)) b (s.getD a 0)
      (byteList_set s a (s.getD b 0) h (getD_lt s h b)) (by simpa using hb),
    pack_set s a (s.getD b 0) h ha, ← pack_getD s h a, ← pack_getD s h b]

theorem rc4_step_sim (st : RC4State) (h : RInv st) :
    RC4.stepP (AbsR st) = (AbsR (RC4.step st).1, (RC4.step st).2) := by
  obtain ⟨hlen, hb⟩ := h
  have hA : (st.i + 1) &&& 0xFF < st.s.length := by rw [hlen]; exact land255_lt _
  have hB : (st.j + st.s.getD ((st.i + 1) &&& 0xFF) 0) &&& 0xFF < st.s.length := by
    rw [hlen]; exact land255_lt _
  have hsw : byteList (listSwap st.s ((st.i + 1) &&& 0xFF)
      ((st.j + st.s.getD ((st.i + 1) &&& 0xFF) 0) &&& 0xFF)) :=
    byteList_listSwap st.s _ _ hb
  simp only [RC4.stepP, RC4.step, AbsR]
  simp only [pack_getD st.s hb]
  rw [← pack_listSwap st.s _ _ hb hA hB]
  simp only [pack_getD _ hsw]

theorem rc4_step_inv (st : RC4State) (h : RInv st) : RInv (RC4.step st).1 := by
  obtain ⟨hlen, hb⟩ := h
  refine ⟨?_, ?_⟩
  · show (listSwap st.s _ _).length = 256
    rw [listSwap_length]
    exact hlen
  · show byteList (listSwap st.s _ _)
    exact byteList_listSwap st.s _ _ hb

theorem vmpc_step_sim (st : RC4State) (h : VInv st) :
    VMPC.stepP (AbsR st) = (AbsR (VMPC.step st).1, (VMPC.step st).2) := by
  obtain ⟨hlen, hb, hi⟩ := h
  have hI : st.i < st.s.length := by rw [hlen]; exact hi
  simp only [VMPC.stepP, VMPC.step, AbsR]
  simp only [pack_getD st.s hb]
  generalize hA : st.s.getD st.i 0 = a
  generalize hJ : st.s.getD ((st.j + a) &&& 0xFF) 0 = jv
  generalize hB : st.s.getD jv 0 = b
  have hjv : jv < 256 := hJ ▸ getD_lt st.s hb _
  have hbv : b < 256 := hB ▸ getD_lt st.s hb _
  rw [← pack_set st.s st.i b hb hI,
    ← pack_set (st.s.set st.i b) jv a (byteList_set st.s st.i b hb hbv)
      (by rw [List.length_set, hlen]; exact hjv)]

theorem vmpc_step_inv (st : RC4State) (h : VInv st) : VInv (VMPC.step st).1 := by
  obtain ⟨hlen, hb, hi⟩ := h
  refine ⟨?_, ?_, ?_⟩
  · show ((st.s.set st.i _).set _ _).length = 256
    simpa using hlen
  · show byteList ((st.s.set st.i _).set _ _)
    refine byteList_set _ _ _ (byteList_set _ _ _ hb ?_) ?_
    · exact getD_lt st.s hb _
    · exact getD_lt st.s hb _
  · show (st.i + 1) &&& 0xFF < 256
    exact land255_lt _

theorem rcplus_step_sim (st : RC4State) (h : RInv st) :
    RCPlus.stepP (AbsR st) = (AbsR (RCPlus.step st).1, (RCPlus.step st).2) := by
  obtain ⟨hlen, hb⟩ := h
  have hA : (st.i + 1) &&& 0xFF < st.s.length := by rw [hlen]; exact land255_lt _
  simp only [RCPlus.stepP, RCPlus.step, AbsR]
  simp only [pack_getD st.s hb]
  generalize hAv : st.s.getD ((st.i + 1) &&& 0xFF) 0 = a
  generalize hBv : st.s.getD ((st.j + a) &&& 0xFF) 0 = b
  have hav : a < 256 := hAv ▸ getD_lt st.s hb _
  have hbv : b < 256 := hBv ▸ getD_lt st.s hb _
  have hsw : byteList ((st.s.set ((st.i + 1) &&& 0xFF) b).set ((st.j + a) &&& 0xFF) a) :=
    byteList_set _ _ _ (byteList_set st.s _ _ hb hbv) hav
  rw [← pack_set st.s ((st.i + 1) &&& 0xFF) b hb hA,
    ← pack_set (st.s.set ((st.i + 1) &&& 0xFF) b) ((st.j + a) &&& 0xFF) a
      (byteList_set st.s _ _ hb hbv) (by rw [List.length_set, hlen]; exact land255_lt _)]
  simp only [pack_getD _ hsw]

theorem rcplus_step_inv (st : RC4State) (h : RInv st) : RInv (RCPlus.step st).1 := by
  obtain ⟨hlen, hb⟩ := h
  refine ⟨?_, ?_⟩
  · show ((st.s.set _ _).set _ _).length = 256
    simpa using hlen
  · show byteList ((st.s.set _ _).set _ _)
    refine byteList_set _ _ _ (byteList_set _ _ _ hb ?_) ?_
    · exact getD_lt st.s hb _
    · exact getD_lt st.s hb _

theorem rc4a_step_sim (st : RC4AState) (h : AInv st) :
    RC4A.stepP (AbsA st) = (AbsA (RC4A.step st).1, (RC4A.step st).2) := by
  obtain ⟨hlen, hb, hlen2, hb2, hi⟩ := h
  by_cases hf : st.first_op
  · have hA : (st.i + 1) &&& 0xFF < st.s.length := by rw [hlen]; exact land255_lt _
    have hB : (st.j + st.s.getD ((st.i + 1) &&& 0xFF) 0) &&& 0xFF < st.s.length := by
      rw [hlen]; exact land255_lt _
    have hsw : byteList (listSwap st.s ((st.i + 1) &&& 0xFF)
        ((st.j + st.s.getD ((st.i + 1) &&& 0xFF) 0) &&& 0xFF)) :=
      byteList_listSwap st.s _ _ hb
    simp only [RC4A.stepP, RC4A.step, AbsA, hf, if_true]
    simp only [pack_getD st.s hb]
    rw [← pack_listSwap st.s _ _ hb hA hB]
    simp only [pack_getD _ hsw, pack_getD st.S2 hb2]
  · have hI : st.i < st.S2.length := by rw [hlen2]; exact hi
    have hB : (st.j2 + st.S2.getD st.i 0) &&& 0xFF < st.S2.length := by
      rw [hlen2]; exact land255_lt _
    have hsw : byteList (listSwap st.S2 st.i ((st.j2 + st.S2.getD st.i 0) &&& 0xFF)) :=
      byteList_listSwap st.S2 _ _ hb2
    simp only [RC4A.stepP, RC4A.step, AbsA, hf, Bool.false_eq_true, if_false]
    simp only [pack_getD st.S2 hb2]
    rw [← pack_listSwap st.S2 _ _ hb2 hI hB]
    simp only [pack_getD _ hsw, pack_getD st.s hb]

theorem rc4a_step_inv (st : RC4AState) (h : AInv st) : AInv (RC4A.step st).1 := by
  obtain ⟨hlen, hb, hlen2, hb2, hi⟩ := h
  by_cases hf : st.first_op
  · simp only [RC4A.step, hf, if_true]
    exact ⟨by rw [listSwap_length]; exact hlen, byteList_listSwap st.s _ _ hb,
      hlen2, hb2, land255_lt _⟩
  · simp only [RC4A.step, hf, Bool.false_eq_true, if_false]
    exact ⟨hlen, hb, by rw [listSwap_length]; exact hlen2,
      byteList_listSwap st.S2 _ _ hb2, hi⟩

theorem KSAstep_sim (key : List Nat) (sj : List Nat × Nat) (i : Nat) (hi : i < 256)
    (hlen : sj.1.length = 256) (hb : byteList sj.1) :
    KSAstepP key (pack sj.1, sj.2) i = (pack (KSAstep key sj i).1, (KSAstep key sj i).2) := by
  have hI : i < sj.1.length := by rw [hlen]; exact hi
  have hB : (sj.2 + sj.1.getD i 0 + key.getD (i % key.length) 0) &&& 0xFF < sj.1.length := by
    rw [hlen]; exact land255_lt _
  simp only [KSAstepP, KSAstep]
  simp only [pack_getD sj.1 hb]
  rw [← pack_listSwap sj.1 _ _ hb hI hB]

theorem runStream_sim {σ π : Type} (step : σ → σ × Nat) (stepP : π → π × Nat)
    (Abs : σ → π) (Inv : σ → Prop)
    (hstep : ∀ st, Inv st → stepP (Abs st) = (Abs (step st).1, (step st).2))
    (hinv : ∀ st, Inv st → Inv (step st).1) :
    ∀ (n : Nat) (st : σ), Inv st →
      runStream stepP (Abs st) n = (Abs (runStream step st n).1, (runStream step st n).2)
        ∧ Inv (runStream step st n).1 := by
  intro n
  induction n with
  | zero =>
    intro st h
    exact ⟨rfl, h⟩
  | succ n ih =>
    intro st h
    have h1 := hstep st h
    have h3 := ih (step st).1 (hinv st h)
    constructor
    · simp only [runStream, h1, h3.1]
    · simp only [runStream]
      exact h3.2

theorem KSA_fold_sim (key : List Nat) (l : List Nat) (hl : ∀ x ∈ l, x < 256) :
    ∀ sj : List Nat × Nat, sj.1.length = 256 → byteList sj.1 →
      l.foldl (KSAstepP key) (pack sj.1, sj.2)
        = (pack (l.foldl (KSAstep key) sj).1, (l.foldl (KSAstep key) sj).2)
        ∧ (l.foldl (KSAstep key) sj).1.length = 256
        ∧ byteList (l.foldl (KSAstep key) sj).1 := by
  induction l with
  | nil =>
    intro sj h1 h2
    exact ⟨rfl, h1, h2⟩
  | cons x xs ih =>
    intro sj h1 h2
    have hx : x < 256 := hl x (by simp)
    have hstep := KSAstep_sim key sj x hx h1 h2
    have hinv1 : (KSAstep key sj x).1.length = 256 := by
      show (listSwap sj.1 _ _).length = 256
      rw [listSwap_length]
      exact h1
    have hinv2 : byteList (KSAstep key sj x).1 := byteList_listSwap sj.1 _ _ h2
    have hrest := ih (fun y hy => hl y (by simp [hy])) (KSAstep key sj x) hinv1 hinv2
    simp only [List.foldl_cons]
    rw [hstep]
    exact hrest


theorem pack_range_eq : pack (List.range 256) = packRange := by decide

theorem range256_split :
    List.range 256 = List.range 128 ++ (List.range 128).map (fun i => 128 + i) := by decide

theorem ksa3_half_eq :
    (List.range 128).foldl (KSAstepP [107, 101, 121]) (packRange, 0) = ksaHalf3 := by decide

theorem ksa3_full_eq :
    ((List.range 128).map (fun i => 128 + i)).foldl (KSAstepP [107, 101, 121]) ksaHalf3
      = ksaFull3 := by decide

theorem ksaK_half_eq :
    (List.range 128).foldl (KSAstepP [75, 101, 121]) (packRange, 0) = ksaHalfK := by decide

theorem ksaK_full_eq :
    ((List.range 128).map (fun i => 128 + i)).foldl (KSAstepP [75, 101, 121]) ksaHalfK
      = ksaFullK := by decide

theorem pack_KSA3 : pack (RC4.KSA [107, 101, 121]) = ksaFull3.1 := by
  have hsim := KSA_fold_sim [107, 101, 121] (List.range 256)
    (fun x hx => List.mem_range.mp hx) (List.range 256, 0) (by simp)
    (fun x hx => List.mem_range.mp hx)
  have h1 : (List.range 256).foldl (KSAstepP [107, 101, 121]) (pack (List.range 256), 0)
      = ksaFull3 := by
    rw [pack_range_eq, range256_split, List.foldl_append, ksa3_half_eq, ksa3_full_eq]
  have h2 := hsim.1
  rw [h1] at h2
  rw [RC4.KSA]
  exact (congrArg Prod.fst h2).symm

theorem pack_KSAK : pack (RC4.KSA [75, 101, 121]) = ksaFullK.1 := by
  have hsim := KSA_fold_sim [75, 101, 121] (List.range 256)
    (fun x hx => List.mem_range.mp hx) (List.range 256, 0) (by simp)
    (fun x hx => List.mem_range.mp hx)
  have h1 : (List.range 256).foldl (KSAstepP [75, 101, 121]) (pack (List.range 256), 0)
      = ksaFullK := by
    rw [pack_range_eq, range256_split, List.foldl_append, ksaK_half_eq, ksaK_full_eq]
  have h2 := hsim.1
  rw [h1] at h2
  rw [RC4.KSA]
  exact (congrArg Prod.fst h2).symm

theorem chkQ1_eq : (runStream RC4.stepP ⟨0, 0, ksaFull3.1⟩ 128).1 = chkQ1 := by decide

theorem chkQ2_eq : (runStream RC4.stepP chkQ1 128).1 = chkQ2 := by decide

theorem chkQ3_eq : (runStream RC4.stepP chkQ2 128).1 = chkQ3 := by decide

theorem chkQ4_eq : (runStream RC4.stepP chkQ3 128).1 = chkQ4 := by decide

theorem chkQ5_eq : (runStream RC4.stepP chkQ4 128).1 = chkQ5 := by decide

theorem chkQ6_eq : (runStream RC4.stepP chkQ5 128).1 = chkQ6 := by decide

theorem chkQ7_eq : (runStream RC4.stepP chkQ6 128).1 = chkQ7 := by decide

theorem chkQ8_eq : (runStream RC4.stepP chkQ7 128).1 = chkQ8 := by decide

theorem chkQ9_eq : (runStream RC4.stepP chkQ8 128).1 = chkQ9 := by decide

theorem chkQ10_eq : (runStream RC4.stepP chkQ9 128).1 = chkQ10 := by decide

theorem chkQ11_eq : (runStream RC4.stepP chkQ10 128).1 = chkQ11 := by decide

theorem chkQ12_eq : (runStream RC4.stepP chkQ11 128).1 = chkQ12 := by decide

theorem chkQ13_eq : (runStream RC4.stepP chkQ12 128).1 = chkQ13 := by decide

theorem chkQ14_eq : (runStream RC4.stepP chkQ13 128).1 = chkQ14 := by decide

theorem chkQ15_eq : (runStream RC4.stepP chkQ14 128).1 = chkQ15 := by decide

theorem chkQ16_eq : (runStream RC4.stepP chkQ15 128).1 = chkQ16 := by decide

theorem chkQ17_eq : (runStream RC4.stepP chkQ16 128).1 = chkQ17 := by decide

theorem chkQ18_eq : (runStream RC4.stepP chkQ17 128).1 = chkQ18 := by decide

theorem chkQ19_eq : (runStream RC4.stepP chkQ18 128).1 = chkQ19 := by decide

theorem chkQ20_eq : (runStream RC4.stepP chkQ19 128).1 = chkQ20 := by decide

theorem chkQ21_eq : (runStream RC4.stepP chkQ20 128).1 = chkQ21 := by decide

theorem chkQ22_eq : (runStream RC4.stepP chkQ21 128).1 = chkQ22 := by decide

theorem chkQ23_eq : (runStream RC4.stepP chkQ22 128).1 = chkQ23 := by decide

theorem chkQ24_eq : (runStream RC4.stepP chkQ23 128).1 = chkQ24 := by decide

theorem chkQ25_eq : (runStream RC4.stepP chkQ24 128).1 = chkQ25 := by decide

theorem chkQ26_eq : (runStream RC4.stepP chkQ25 128).1 = chkQ26 := by decide

theorem chkQ27_eq : (runStream RC4.stepP chkQ26 128).1 = chkQ27 := by decide

theorem chkQ28_eq : (runStream RC4.stepP chkQ27 128).1 = chkQ28 := by decide

theorem chkQ29_eq : (runStream RC4.stepP chkQ28 128).1 = chkQ29 := by decide

theorem chkQ30_eq : (runStream RC4.stepP chkQ29 128).1 = chkQ30 := by decide

theorem chkQ31_eq : (runStream RC4.stepP chkQ30 128).1 = chkQ31 := by decide

theorem chkQ32_eq : (runStream RC4.stepP chkQ31 128).1 = chkQ32 := by decide

theorem chkQA1_eq : (runStream RC4A.stepP ⟨0, 0, ksaFull3.1, ksaFull3.1, 0, true⟩ 128).1 = chkQA1 := by decide

theorem chkQA2_eq : (runStream RC4A.stepP chkQA1 128).1 = chkQA2 := by decide

theorem chkQA3_eq : (runStream RC4A.stepP chkQA2 128).1 = chkQA3 := by decide

theorem chkQA4_eq : (runStream RC4A.stepP chkQA3 128).1 = chkQA4 := by decide

theorem chkQA5_eq : (runStream RC4A.stepP chkQA4 128).1 = chkQA5 := by decide

theorem chkQA6_eq : (runStream RC4A.stepP chkQA5 128).1 = chkQA6 := by decide

theorem chkQA7_eq : (runStream RC4A.stepP chkQA6 128).1 = chkQA7 := by decide

theorem chkQA8_eq : (runStream RC4A.stepP chkQA7 128).1 = chkQA8 := by decide

theorem chkQA9_eq : (runStream RC4A.stepP chkQA8 128).1 = chkQA9 := by decide

/-- Packed state after the 4096-step RCDrop warm-up, assembled from 128-step
blocks. -/
theorem drop4096_packed :
    (runStream RC4.stepP ⟨0, 0, ksaFull3.1⟩ 4096).1 = chkQ32 := by
  rw [show (4096 : Nat) = 128 + 3968 from by norm_num, runStream_fst_add, chkQ1_eq,
    show (3968 : Nat) = 128 + 3840 from by norm_num, runStream_fst_add, chkQ2_eq,
    show (3840 : Nat) = 128 + 3712 from by norm_num, runStream_fst_add, chkQ3_eq,
    show (3712 : Nat) = 128 + 3584 from by norm_num, runStream_fst_add, chkQ4_eq,
    show (3584 : Nat) = 128 + 3456 from by norm_num, runStream_fst_add, chkQ5_eq,
    show (3456 : Nat) = 128 + 3328 from by norm_num, runStream_fst_add, chkQ6_eq,
    show (3328 : Nat) = 128 + 3200 from by norm_num, runStream_fst_add, chkQ7_eq,
    show (3200 : Nat) = 128 + 3072 from by norm_num, runStream_fst_add, chkQ8_eq,
    show (3072 : Nat) = 128 + 2944 from by norm_num, runStream_fst_add, chkQ9_eq,
    show (2944 : Nat) = 128 + 2816 from by norm_num, runStream_fst_add, chkQ10_eq,
    show (2816 : Nat) = 128 + 2688 from by norm_num, runStream_fst_add, chkQ11_eq,
    show (2688 : Nat) = 128 + 2560 from by norm_num, runStream_fst_add, chkQ12_eq,
    show (2560 : Nat) = 128 + 2432 from by norm_num, runStream_fst_add, chkQ13_eq,
    show (2432 : Nat) = 128 + 2304 from by norm_num, runStream_fst_add, chkQ14_eq,
    show (2304 : Nat) = 128 + 2176 from by norm_num, runStream_fst_add, chkQ15_eq,
    show (2176 : Nat) = 128 + 2048 from by norm_num, runStream_fst_add, chkQ16_eq,
    show (2048 : Nat) = 128 + 1920 from by norm_num, runStream_fst_add, chkQ17_eq,
    show (1920 : Nat) = 128 + 1792 from by norm_num, runStream_fst_add, chkQ18_eq,
    show (1792 : Nat) = 128 + 1664 from by norm_num, runStream_fst_add, chkQ19_eq,
    show (1664 : Nat) = 128 + 1536 from by norm_num, runStream_fst_add, chkQ20_eq,
    show (1536 : Nat) = 128 + 1408 from by norm_num, runStream_fst_add, chkQ21_eq,
    show (1408 : Nat) = 128 + 1280 from by norm_num, runStream_fst_add, chkQ22_eq,
    show (1280 : Nat) = 128 + 1152 from by norm_num, runStream_fst_add, chkQ23_eq,
    show (1152 : Nat) = 128 + 1024 from by norm_num, runStream_fst_add, chkQ24_eq,
    show (1024 : Nat) = 128 + 896 from by norm_num, runStream_fst_add, chkQ25_eq,
    show (896 : Nat) = 128 + 768 from by norm_num, runStream_fst_add, chkQ26_eq,
    show (768 : Nat) = 128 + 640 from by norm_num, runStream_fst_add, chkQ27_eq,
    show (640 : Nat) = 128 + 512 from by norm_num, runStream_fst_add, chkQ28_eq,
    show (512 : Nat) = 128 + 384 from by norm_num, runStream_fst_add, chkQ29_eq,
    show (384 : Nat) = 128 + 256 from by norm_num, runStream_fst_add, chkQ30_eq,
    show (256 : Nat) = 128 + 128 from by norm_num, runStream_fst_add, chkQ31_eq,
    chkQ32_eq]

/-- Packed state after the 1234-step RC4A warm-up, assembled from 128-step
blocks (82 trailing steps remain symbolic). -/
theorem skipA1234_packed :
    (runStream RC4A.stepP ⟨0, 0, ksaFull3.1, ksaFull3.1, 0, true⟩ 1234).1
      = (runStream RC4A.stepP chkQA9 82).1 := by
  rw [show (1234 : Nat) = 128 + 1106 from by norm_num, runStream_fst_add, chkQA1_eq,
    show (1106 : Nat) = 128 + 978 from by norm_num, runStream_fst_add, chkQA2_eq,
    show (978 : Nat) = 128 + 850 from by norm_num, runStream_fst_add, chkQA3_eq,
    show (850 : Nat) = 128 + 722 from by norm_num, runStream_fst_add, chkQA4_eq,
    show (722 : Nat) = 128 + 594 from by norm_num, runStream_fst_add, chkQA5_eq,
    show (594 : Nat) = 128 + 466 from by norm_num, runStream_fst_add, chkQA6_eq,
    show (466 : Nat) = 128 + 338 from by norm_num, runStream_fst_add, chkQA7_eq,
    show (338 : Nat) = 128 + 210 from by norm_num, runStream_fst_add, chkQA8_eq,
    show (210 : Nat) = 128 + 82 from by norm_num, runStream_fst_add, chkQA9_eq]

theorem rc4_run_sim (n : Nat) (st : RC4State) (h : RInv st) :
    runStream RC4.stepP (AbsR st) n
      = (AbsR (runStream RC4.step st n).1, (runStream RC4.step st n).2)
      ∧ RInv (runStream RC4.step st n).1 :=
  runStream_sim RC4.step RC4.stepP AbsR RInv rc4_step_sim rc4_step_inv n st h

theorem vmpc_run_sim (n : Nat) (st : RC4State) (h : VInv st) :
    runStream VMPC.stepP (AbsR st) n
      = (AbsR (runStream VMPC.step st n).1, (runStream VMPC.step st n).2)
      ∧ VInv (runStream VMPC.step st n).1 :=
  runStream_sim VMPC.step VMPC.stepP AbsR VInv vmpc_step_sim vmpc_step_inv n st h

theorem rcplus_run_sim (n : Nat) (st : RC4State) (h : RInv st) :
    runStream RCPlus.stepP (AbsR st) n
      = (AbsR (runStream RCPlus.step st n).1, (runStream RCPlus.step st n).2)
      ∧ RInv (runStream RCPlus.step st n).1 :=
  runStream_sim RCPlus.step RCPlus.stepP AbsR RInv rcplus_step_sim rcplus_step_inv n st h

theorem rc4a_run_sim (n : Nat) (st : RC4AState) (h : AInv st) :
    runStream RC4A.stepP (AbsA st) n
      = (AbsA (runStream RC4A.step st n).1, (runStream RC4A.step st n).2)
      ∧ AInv (runStream RC4A.step st n).1 :=
  runStream_sim RC4A.step RC4A.stepP AbsA AInv rc4a_step_sim rc4a_step_inv n st h

theorem init_RInv (key : List Nat) : RInv (RC4.init key) := by
  unfold RInv
  simp only [RC4.init]
  exact ⟨perm_sbox_length _ (KSA_perm key), byteList_of_perm _ (KSA_perm key)⟩

theorem init_VInv (key : List Nat) : VInv (RC4.init key) := by
  unfold VInv
  simp only [RC4.init]
  exact ⟨perm_sbox_length _ (KSA_perm key), byteList_of_perm _ (KSA_perm key), by norm_num⟩

theorem init_AInv (key : List Nat) : AInv (RC4A.init key) := by
  unfold AInv
  simp only [RC4A.init]
  exact ⟨perm_sbox_length _ (KSA_perm key), byteList_of_perm _ (KSA_perm key),
    perm_sbox_length _ (KSA_perm key), byteList_of_perm _ (KSA_perm key), by norm_num⟩

theorem AbsR_init3 : AbsR (RC4.init [107, 101, 121]) = ⟨0, 0, ksaFull3.1⟩ := by
  simp only [AbsR, RC4.init]
  rw [pack_KSA3]

theorem AbsR_initK : AbsR (RC4.init [75, 101, 121]) = ⟨0, 0, ksaFullK.1⟩ := by
  simp only [AbsR, RC4.init]
  rw [pack_KSAK]

theorem AbsA_init3 :
    AbsA (RC4A.init [107, 101, 121]) = ⟨0, 0, ksaFull3.1, ksaFull3.1, 0, true⟩ := by
  simp only [AbsA, RC4A.init]
  rw [pack_KSA3]

theorem rc4_encode_decode_abs (st : RC4State) (h : RInv st) (content : List Nat) :
    RC4.encode_decode st content
      = List.zipWith (fun x k => x ^^^ k) content
          (runStream RC4.stepP (AbsR st) content.length).2 := by
  rw [RC4.encode_decode, encodeDecodeWith, (rc4_run_sim content.length st h).1]

theorem vmpc_encode_decode_abs (st : RC4State) (h : VInv st) (content : List Nat) :
    VMPC.encode_decode st content
      = List.zipWith (fun x k => x ^^^ k) content
          (runStream VMPC.stepP (AbsR st) content.length).2 := by
  rw [VMPC.encode_decode, encodeDecodeWith, (vmpc_run_sim content.length st h).1]

theorem rcplus_encode_decode_abs (st : RC4State) (h : RInv st) (content : List Nat) :
    RCPlus.encode_decode st content
      = List.zipWith (fun x k => x ^^^ k) content
          (runStream RCPlus.stepP (AbsR st) content.length).2 := by
  rw [RCPlus.encode_decode, encodeDecodeWith, (rcplus_run_sim content.length st h).1]

theorem rc4a_encode_decode_abs (st : RC4AState) (h : AInv st) (content : List Nat) :
    RC4A.encode_decode st content
      = List.zipWith (fun x k => x ^^^ k) content
          (runStream RC4A.stepP (AbsA st) content.length).2 := by
  rw [RC4A.encode_decode, encodeDecodeWith, (rc4a_run_sim content.length st h).1]

theorem rc4_eq_class (key inp iv : List Nat) :
    rc4 key inp iv
      = RC4.encode_decode
          ((RC4.PRGA (RC4.init key) (if iv = [] then 0 else ivSkipSpec iv)).1) inp := by
  rcases eq_or_ne iv [] with hiv | hiv
  · subst hiv
    simp only [rc4, if_pos rfl, RC4.encode_decode]
    rw [rc4Loop_eq]
    rfl
  · simp only [rc4, if_neg hiv, RC4.encode_decode]
    rw [rc4Loop_eq, skipLoop_eq, ivSkip_eq_spec]
    rfl

/-- C1: baseline RC4 conforms to the reference algorithm: for keys of
length 1-256 the key schedule equals the spec's pseudocode (stated with
mod 256), the per-byte generation step equals the spec's step, and
consequently RC4('key') encrypts 'test' to [127, 9, 71, 153]. -/
theorem rc4_conforms_to_reference :
    (∀ key : List Nat, 1 ≤ key.length → key.length ≤ 256 → RC4.KSA key = KSAspec key)
  ∧ (∀ st : RC4State, RC4.step st = RC4stepSpec st)
  ∧ RC4.encode_decode (RC4.init [107, 101, 121]) [116, 101, 115, 116]
      = [127, 9, 71, 153] := by
  refine ⟨?_, ?_, ?_⟩
  · intro key _ _
    rw [RC4.KSA, KSAspec]
    have hext : ∀ sj : List Nat × Nat, ∀ i ∈ List.range 256,
        KSAstep key sj i
          = (fun (sj : List Nat × Nat) (i : Nat) =>
              let j := (sj.2 + sj.1.getD i 0 + key.getD (i % key.length) 0) % 256
              (listSwap sj.1 i j, j)) sj i := by
      intro sj i _
      simp [KSAstep, land255_eq_mod]
    exact congrArg Prod.fst (List.foldl_ext _ _ (List.range 256, 0) hext)
  · intro st
    simp [RC4.step, RC4stepSpec, land255_eq_mod]
  · rw [rc4_encode_decode_abs (RC4.init [107, 101, 121]) (init_RInv _)
      [116, 101, 115, 116], AbsR_init3]
    decide

/-- C1 witness: the key-schedule refinement applied at the concrete key
'key'. -/
theorem rc4_conforms_to_reference_witness :
    1 ≤ ([107, 101, 121] : List Nat).length ∧ ([107, 101, 121] : List Nat).length ≤ 256
      ∧ RC4.KSA [107, 101, 121] = KSAspec [107, 101, 121] :=
  ⟨by decide, by decide, rc4_conforms_to_reference.1 [107, 101, 121] (by decide) (by decide)⟩

/-- C2: RC4A keeps two permutations with alternating phases (the flag
starts in the first phase, `i` advances only in the first phase), the step
equals the spec's description, a construction-time skip > 0 runs the same
alternating PRGA discarding the bytes, and the two concrete vectors hold:
RC4A('key') encrypts 'test' to [127, 110, 31, 24] and RC4A('key', 1234)
encrypts 'test' to [250, 235, 192, 199]. -/
theorem rc4a_conforms :
    (∀ key : List Nat, (RC4A.init key).first_op = true ∧ (RC4A.init key).j2 = 0)
  ∧ (∀ st : RC4AState, RC4A.step st = RC4AstepSpec st)
  ∧ (∀ (key : List Nat) (skip : Nat), 0 < skip →
      RC4A.initSkip key skip = (RC4A.PRGA (RC4A.init key) skip).1)
  ∧ RC4A.encode_decode (RC4A.initSkip [107, 101, 121] 0) [116, 101, 115, 116]
      = [127, 110, 31, 24]
  ∧ RC4A.encode_decode (RC4A.initSkip [107, 101, 121] 1234) [116, 101, 115, 116]
      = [250, 235, 192, 199] := by
  refine ⟨?_, ?_, ?_, ?_, ?_⟩
  · intro key
    exact ⟨rfl, rfl⟩
  · intro st
    by_cases hf : st.first_op <;>
      simp [RC4A.step, RC4AstepSpec, hf, land255_eq_mod]
  · intro key skip h
    rw [RC4A.initSkip, if_pos h]
  · rw [show RC4A.initSkip [107, 101, 121] 0 = RC4A.init [107, 101, 121] from by
      rw [RC4A.initSkip, if_neg (by norm_num)]]
    rw [rc4a_encode_decode_abs (RC4A.init [107, 101, 121]) (init_AInv _)
      [116, 101, 115, 116], AbsA_init3]
    decide
  · have h1 : RC4A.initSkip [107, 101, 121] 1234
        = (runStream RC4A.step (RC4A.init [107, 101, 121]) 1234).1 := by
      rw [RC4A.initSkip, if_pos (by norm_num), RC4A.PRGA]
    have hsim := rc4a_run_sim 1234 (RC4A.init [107, 101, 121]) (init_AInv _)
    have habs : AbsA (RC4A.initSkip [107, 101, 121] 1234)
        = (runStream RC4A.stepP chkQA9 82).1 := by
      rw [h1]
      have h2 : AbsA ((runStream RC4A.step (RC4A.init [107, 101, 121]) 1234).1)
          = (runStream RC4A.stepP (AbsA (RC4A.init [107, 101, 121])) 1234).1 := by
        rw [hsim.1]
      rw [h2, AbsA_init3, skipA1234_packed]
    have hinv : AInv (RC4A.initSkip [107, 101, 121] 1234) := by
      rw [h1]
      exact hsim.2
    rw [rc4a_encode_decode_abs _ hinv [116, 101, 115, 116], habs]
    decide

/-- C2 witness: the skip clause applied at skip = 1234. -/
theorem rc4a_conforms_witness :
    (0 : Nat) < 1234
      ∧ RC4A.initSkip [107, 101, 121] 1234
          = (RC4A.PRGA (RC4A.init [107, 101, 121]) 1234).1 :=
  ⟨by decide, rc4a_conforms.2.2.1 [107, 101, 121] 1234 (by decide)⟩

/-- C3: VMPC produces each byte in the exact spec order, starting from
i = j = 0 after key scheduling, and VMPC('key') encrypts 'test' to
[19, 95, 153, 146]. -/
theorem vmpc_conforms :
    (∀ key : List Nat, (RC4.init key).i = 0 ∧ (RC4.init key).j = 0)
  ∧ (∀ st : RC4State, VMPC.step st = VMPCstepSpec st)
  ∧ VMPC.encode_decode (VMPC.initSkip [107, 101, 121] 0) [116, 101, 115, 116]
      = [19, 95, 153, 146] := by
  refine ⟨?_, ?_, ?_⟩
  · intro key
    exact ⟨rfl, rfl⟩
  · intro st
    simp [VMPC.step, VMPCstepSpec, land255_eq_mod]
  · rw [show VMPC.initSkip [107, 101, 121] 0 = RC4.init [107, 101, 121] from by
      rw [VMPC.initSkip, if_neg (by norm_num)]]
    rw [vmpc_encode_decode_abs (RC4.init [107, 101, 121]) (init_VInv _)
      [116, 101, 115, 116], AbsR_init3]
    decide

/-- C4: the RC4+ step computes exactly the spec's index mixing and output
formula (every index reduced into 0-255), and RCPlus('key') encrypts
'test' to [39, 207, 224, 135]. -/
theorem rcplus_conforms :
    (∀ st : RC4State, RCPlus.step st = RCPlusStepSpec st)
  ∧ RCPlus.encode_decode (RCPlus.initSkip [107, 101, 121] 0) [116, 101, 115, 116]
      = [39, 207, 224, 135] := by
  refine ⟨?_, ?_⟩
  · intro st
    simp [RCPlus.step, RCPlusStepSpec, land255_eq_mod]
  · rw [show RCPlus.initSkip [107, 101, 121] 0 = RC4.init [107, 101, 121] from by
      rw [RCPlus.initSkip, if_neg (by norm_num)]]
    rw [rcplus_encode_decode_abs (RC4.init [107, 101, 121]) (init_RInv _)
      [116, 101, 115, 116], AbsR_init3]
    decide

/-- C5: for every key of length 1-256, the S-box is a permutation of
0..255 right after key scheduling, and one PRGA step of each variant
(RC4 and RC4-drop share `RC4.step`; RC4A for both of its permutations;
VMPC; RC4+; and the skip-loop body of the single-function entry point)
preserves the permutation property, since mutation only swaps entries. -/
theorem sbox_permutation_invariant :
    (∀ key : List Nat, 1 ≤ key.length → key.length ≤ 256 →
        List.Perm (RC4.KSA key) (List.range 256))
  ∧ (∀ st : RC4State, List.Perm st.s (List.range 256) →
        List.Perm (RC4.step st).1.s (List.range 256))
  ∧ (∀ st : RC4AState, List.Perm st.s (List.range 256) →
        List.Perm st.S2 (List.range 256) → st.i < 256 →
        List.Perm (RC4A.step st).1.s (List.range 256)
          ∧ List.Perm (RC4A.step st).1.S2 (List.range 256))
  ∧ (∀ st : RC4State, List.Perm st.s (List.range 256) → st.i < 256 →
        List.Perm (VMPC.step st).1.s (List.range 256))
  ∧ (∀ st : RC4State, List.Perm st.s (List.range 256) →
        List.Perm (RCPlus.step st).1.s (List.range 256))
  ∧ (∀ st : RC4State, List.Perm st.s (List.range 256) →
        List.Perm (dropStep st).s (List.range 256)) := by
  refine ⟨?_, ?_, ?_, ?_, ?_, ?_⟩
  · intro key _ _
    exact KSA_perm key
  · intro st h
    have hlen : st.s.length = 256 := perm_sbox_length _ h
    simp only [RC4.step]
    refine (listSwap_perm st.s _ _ ?_ ?_).trans h
    · rw [hlen]; exact land255_lt _
    · rw [hlen]; exact land255_lt _
  · intro st h h2 hi
    by_cases hf : st.first_op
    · have hlen : st.s.length = 256 := perm_sbox_length _ h
      constructor
      · simp only [RC4A.step, hf, if_true]
        refine (listSwap_perm st.s _ _ ?_ ?_).trans h
        · rw [hlen]; exact land255_lt _
        · rw [hlen]; exact land255_lt _
      · simp only [RC4A.step, hf, if_true]
        exact h2
    · have hlen2 : st.S2.length = 256 := perm_sbox_length _ h2
      constructor
      · simp only [RC4A.step, hf, Bool.false_eq_true, if_false]
        exact h
      · simp only [RC4A.step, hf, Bool.false_eq_true, if_false]
        refine (listSwap_perm st.S2 _ _ ?_ ?_).trans h2
        · rw [hlen2]; exact hi
        · rw [hlen2]; exact land255_lt _
  · intro st h hi
    have hlen : st.s.length = 256 := perm_sbox_length _ h
    have hb : byteList st.s := byteList_of_perm _ h
    simp only [VMPC.step]
    refine (listSwap_perm st.s st.i _ ?_ ?_).trans h
    · rw [hlen]; exact hi
    · rw [hlen]; exact getD_lt st.s hb _
  · intro st h
    have hlen : st.s.length = 256 := perm_sbox_length _ h
    simp only [RCPlus.step]
    refine (listSwap_perm st.s _ _ ?_ ?_).trans h
    · rw [hlen]; exact land255_lt _
    · rw [hlen]; exact land255_lt _
  · intro st h
    have hlen : st.s.length = 256 := perm_sbox_length _ h
    simp only [dropStep]
    refine (listSwap_perm st.s _ _ ?_ ?_).trans h
    · rw [hlen]; exact land255_lt _
    · rw [hlen]; exact land255_lt _

/-- C5 witness: the invariant clauses applied at the key 'key' and at the
identity permutation state. -/
theorem sbox_permutation_invariant_witness :
    (1 ≤ ([107, 101, 121] : List Nat).length
      ∧ ([107, 101, 121] : List Nat).length ≤ 256
      ∧ List.Perm (RC4.KSA [107, 101, 121]) (List.range 256))
  ∧ List.Perm (RC4.step ⟨0, 0, List.range 256⟩).1.s (List.range 256)
  ∧ (List.Perm (RC4A.step ⟨0, 0, List.range 256, List.range 256, 0, true⟩).1.s
        (List.range 256)
      ∧ List.Perm (RC4A.step ⟨0, 0, List.range 256, List.range 256, 0, true⟩).1.S2
        (List.range 256))
  ∧ List.Perm (VMPC.step ⟨0, 0, List.range 256⟩).1.s (List.range 256)
  ∧ List.Perm (RCPlus.step ⟨0, 0, List.range 256⟩).1.s (List.range 256)
  ∧ List.Perm (dropStep ⟨0, 0, List.range 256⟩).s (List.range 256) :=
  ⟨⟨by decide, by decide,
    sbox_permutation_invariant.1 [107, 101, 121] (by decide) (by decide)⟩,
   sbox_permutation_invariant.2.1 ⟨0, 0, List.range 256⟩ (List.Perm.refl _),
   sbox_permutation_invariant.2.2.1 ⟨0, 0, List.range 256, List.range 256, 0, true⟩
     (List.Perm.refl _) (List.Perm.refl _) (by norm_num),
   sbox_permutation_invariant.2.2.2.1 ⟨0, 0, List.range 256⟩ (List.Perm.refl _)
     (by norm_num),
   sbox_permutation_invariant.2.2.2.2.1 ⟨0, 0, List.range 256⟩ (List.Perm.refl _),
   sbox_permutation_invariant.2.2.2.2.2 ⟨0, 0, List.range 256⟩ (List.Perm.refl _)⟩

/-- C6: involution under matched state: for every variant and every
key/skip configuration, a fresh identically-configured instance decrypts
what another fresh instance encrypted, for every plaintext; in particular
decoding [127, 9, 71, 153] under key 'key' gives back the bytes of 'test'
(`decode_str` then UTF-8-decodes them). -/
theorem encode_decode_involution :
    (∀ key P : List Nat,
        RC4.encode_decode (RC4.init key) (RC4.encode_decode (RC4.init key) P) = P)
  ∧ (∀ (key : List Nat) (skip : Nat) (P : List Nat),
        RC4A.encode_decode (RC4A.initSkip key skip)
          (RC4A.encode_decode (RC4A.initSkip key skip) P) = P)
  ∧ (∀ (key : List Nat) (skip : Nat) (P : List Nat),
        VMPC.encode_decode (VMPC.initSkip key skip)
          (VMPC.encode_decode (VMPC.initSkip key skip) P) = P)
  ∧ (∀ (key : List Nat) (skip : Nat) (P : List Nat),
        RCPlus.encode_decode (RCPlus.initSkip key skip)
          (RCPlus.encode_decode (RCPlus.initSkip key skip) P) = P)
  ∧ (∀ (key : List Nat) (skip : Nat) (P : List Nat),
        RC4.encode_decode (RCDrop.init key skip)
          (RC4.encode_decode (RCDrop.init key skip) P) = P)
  ∧ RC4.encode_decode (RC4.init [107, 101, 121]) [127, 9, 71, 153]
      = [116, 101, 115, 116] := by
  refine ⟨?_, ?_, ?_, ?_, ?_, ?_⟩
  · intro key P
    exact encodeDecodeWith_involution RC4.step (RC4.init key) P
  · intro key skip P
    exact encodeDecodeWith_involution RC4A.step (RC4A.initSkip key skip) P
  · intro key skip P
    exact encodeDecodeWith_involution VMPC.step (VMPC.initSkip key skip) P
  · intro key skip P
    exact encodeDecodeWith_involution RCPlus.step (RCPlus.initSkip key skip) P
  · intro key skip P
    exact encodeDecodeWith_involution RC4.step (RCDrop.init key skip) P
  · rw [rc4_encode_decode_abs (RC4.init [107, 101, 121]) (init_RInv _)
      [127, 9, 71, 153], AbsR_init3]
    decide

/-- C7: the single-function entry point equals baseline RC4 with an
IV-derived drop: key scheduling, then `skip = (510 + Σ iv[k] << k) mod
65536` (over at most the first 16 IV bytes) discarded baseline PRGA steps
for a non-empty IV and 0 steps for an empty IV, then XOR with the
subsequent baseline keystream; with an empty IV it matches class-based RC4
with skip=0, e.g. key 'Key' and plaintext 'Plaintext' encrypt to hex
BBF316E8D940AF0AD3. -/
theorem single_function_refines_rc4 :
    (∀ key inp iv : List Nat, key ≠ [] →
        rc4 key inp iv
          = RC4.encode_decode
              ((RC4.PRGA (RC4.init key) (if iv = [] then 0 else ivSkipSpec iv)).1) inp)
  ∧ rc4 [75, 101, 121] [80, 108, 97, 105, 110, 116, 101, 120, 116] []
      = [187, 243, 22, 232, 217, 64, 175, 10, 211] := by
  constructor
  · intro key inp iv _
    exact rc4_eq_class key inp iv
  · rw [rc4_eq_class]
    have h1 : (RC4.PRGA (RC4.init [75, 101, 121])
        (if ([] : List Nat) = [] then 0 else ivSkipSpec [])).1
        = RC4.init [75, 101, 121] := by
      rw [if_pos rfl]
      rfl
    rw [h1, rc4_encode_decode_abs (RC4.init [75, 101, 121]) (init_RInv _)
      [80, 108, 97, 105, 110, 116, 101, 120, 116], AbsR_initK]
    decide

/-- C7 witness: the refinement applied to the concrete 'Key'/'Plaintext'
call with an empty IV. -/
theorem single_function_refines_rc4_witness :
    ([75, 101, 121] : List Nat) ≠ []
      ∧ rc4 [75, 101, 121] [80, 108, 97, 105, 110, 116, 101, 120, 116] []
          = RC4.encode_decode
              ((RC4.PRGA (RC4.init [75, 101, 121])
                  (if ([] : List Nat) = [] then 0 else ivSkipSpec [])).1)
              [80, 108, 97, 105, 110, 116, 101, 120, 116] :=
  ⟨by decide,
   single_function_refines_rc4.1 [75, 101, 121]
     [80, 108, 97, 105, 110, 116, 101, 120, 116] [] (by decide)⟩

/-- C8: skip equivalence: generating `skip + N` baseline bytes and
discarding the first `skip` equals construction-time warm-up (RCDrop, and
likewise the skip loop of the single-function entry point, which derives
its count from the IV) followed by generating `N` bytes; concretely
RCDrop('key', 4096) encrypts 'test' to [101, 75, 195, 218]. -/
theorem skip_equivalence :
    (∀ (key : List Nat) (skip N : Nat),
        ((RC4.PRGA (RC4.init key) (skip + N)).2).drop skip
          = (RC4.PRGA (RCDrop.init key skip) N).2)
  ∧ (∀ (st : RC4State) (skip N : Nat),
        ((RC4.PRGA st (skip + N)).2).drop skip = (RC4.PRGA (skipLoop st skip) N).2)
  ∧ RC4.encode_decode (RCDrop.init [107, 101, 121] 4096) [116, 101, 115, 116]
      = [101, 75, 195, 218] := by
  refine ⟨?_, ?_, ?_⟩
  · intro key skip N
    rcases Nat.eq_zero_or_pos skip with h | h
    · subst h
      simp [RCDrop.init]
    · rw [PRGA_split, RCDrop.init, if_pos h]
  · intro st skip N
    rw [PRGA_split, skipLoop_eq]
  · have h1 : RCDrop.init [107, 101, 121] 4096
        = (runStream RC4.step (RC4.init [107, 101, 121]) 4096).1 := by
      rw [RCDrop.init, if_pos (by norm_num), RC4.PRGA]
    have hsim := rc4_run_sim 4096 (RC4.init [107, 101, 121]) (init_RInv _)
    have habs : AbsR (RCDrop.init [107, 101, 121] 4096) = chkQ32 := by
      rw [h1]
      have h2 : AbsR ((runStream RC4.step (RC4.init [107, 101, 121]) 4096).1)
          = (runStream RC4.stepP (AbsR (RC4.init [107, 101, 121])) 4096).1 := by
        rw [hsim.1]
      rw [h2, AbsR_init3, drop4096_packed]
    have hinv : RInv (RCDrop.init [107, 101, 121] 4096) := by
      rw [h1]
      exact hsim.2
    rw [rc4_encode_decode_abs _ hinv [116, 101, 115, 116], habs]
    decide

/-- C9 counterexample: on an empty key the single-function entry point
fails via its `assert len(key) > 0` with an `AssertionError`, not with the
modulo-by-zero inside key scheduling that the claim describes. -/
theorem empty_key_failure_counterexample :
    rc4Checked [] [0] [] = Except.error PyError.assertionError
      ∧ rc4Checked [] [0] [] ≠ Except.error PyError.zeroDivisionError := by
  constructor
  · rfl
  · simp [rc4Checked]

/-- C9 amended: every variant constructor fails on an empty key with the
modulo-by-zero inside key scheduling; the alternate entry point also fails
fast on an empty key, but via its explicit assertion before key scheduling;
in all cases no partial output is produced. -/
theorem empty_key_failure_amended :
    (∀ key : List Nat, key.length = 0 →
        RC4.initChecked key = Except.error PyError.zeroDivisionError)
  ∧ (∀ (key : List Nat) (skip : Nat), key.length = 0 →
        RC4A.initChecked key skip = Except.error PyError.zeroDivisionError)
  ∧ (∀ (key : List Nat) (skip : Nat), key.length = 0 →
        VMPC.initChecked key skip = Except.error PyError.zeroDivisionError)
  ∧ (∀ (key : List Nat) (skip : Nat), key.length = 0 →
        RCPlus.initChecked key skip = Except.error PyError.zeroDivisionError)
  ∧ (∀ (key : List Nat) (skip : Nat), key.length = 0 →
        RCDrop.initChecked key skip = Except.error PyError.zeroDivisionError)
  ∧ (∀ key inp iv : List Nat, key.length = 0 →
        rc4Checked key inp iv = Except.error PyError.assertionError) := by
  refine ⟨?_, ?_, ?_, ?_, ?_, ?_⟩
  · intro key h
    simp [RC4.initChecked, KSAchecked, h, Except.map]
  · intro key skip h
    simp [RC4A.initChecked, KSAchecked, h, Except.map]
  · intro key skip h
    simp [VMPC.initChecked, KSAchecked, h, Except.map]
  · intro key skip h
    simp [RCPlus.initChecked, KSAchecked, h, Except.map]
  · intro key skip h
    simp [RCDrop.initChecked, KSAchecked, h, Except.map]
  · intro key inp iv h
    simp [rc4Checked, h]

/-- C9 witness: the amended statement applied to the empty key. -/
theorem empty_key_failure_witness :
    ([] : List Nat).length = 0
      ∧ RC4.initChecked [] = Except.error PyError.zeroDivisionError
      ∧ rc4Checked [] [1] [2] = Except.error PyError.assertionError :=
  ⟨rfl, empty_key_failure_amended.1 [] rfl,
   empty_key_failure_amended.2.2.2.2.2 [] [1] [2] rfl⟩

/-- C10: a freshly constructed RC4A instance (before any skip warm-up) has
its second permutation S2 equal to its first permutation s, both being the
result of the same deterministic key schedule on the same key. -/
theorem rc4a_initial_sboxes_equal (key : List Nat) :
    (RC4A.init key).S2 = RC4.KSA key ∧ (RC4A.init key).s = RC4.KSA key
      ∧ (RC4A.init key).S2 = (RC4A.init key).s := by
  refine ⟨?_, ?_, ?_⟩ <;> simp [RC4A.init]

end RC4Repo
